import Mathlib

/-!
Verification of the asobi provisioning/teardown engine against its design
specification.  Definitions below are shallow embeddings of the TypeScript
source: remote-API effects are supplied by explicit oracle records, state is
threaded explicitly, and JavaScript truthiness on nullable strings is modelled
by `truthyS`.
-/

namespace Asobi

/-- JS truthiness of a `string | null` value: `null` and `""` are falsy. -/
def truthyS : Option String → Bool
  | none => false
  | some s => !(s == "")

/-- A typed failure: `InfrastructureError` from src/utls/errors.ts carries a
human message and a machine-readable code. -/
structure InfraError where
  message : String
  code : String
  deriving DecidableEq, Repr

instance {ε α : Type} [DecidableEq ε] [DecidableEq α] :
    DecidableEq (Except ε α) := fun a b =>
  match a, b with
  | .error x, .error y => decidable_of_iff (x = y) (by simp)
  | .error _, .ok _ => isFalse (by simp)
  | .ok _, .error _ => isFalse (by simp)
  | .ok x, .ok y => decidable_of_iff (x = y) (by simp)

/-- `InfrastructureResources` from src/types/index.ts. -/
structure Resources where
  vpcId : Option String
  subnetIds : List String
  securityGroupIds : List String
  instanceId : Option String
  loadBalancerArn : Option String
  targetGroupArn : Option String
  certificateArn : Option String
  routeTableId : Option String
  internetGatewayId : Option String
  instanceProfileName : Option String
  deriving DecidableEq, Repr

/-- `InfrastructureConfig` from src/types/index.ts (fields used by the
orchestrator and by `generateConfigTemplate`). -/
structure Config where
  appName : String
  region : String
  instanceType : String
  amiId : String
  keyName : String
  type : String
  port : Nat
  resources : Resources
  accessKeyId : String
  secretAccessKey : String
  runCommand : String
  codebasePath : String
  isNodeProject : Bool
  domain : String
  deriving DecidableEq, Repr

/-- The resource record of `generateConfigTemplate` (all fields empty). -/
def templateResources : Resources :=
  { vpcId := none
    subnetIds := []
    securityGroupIds := []
    instanceId := none
    loadBalancerArn := none
    targetGroupArn := none
    certificateArn := none
    routeTableId := none
    internetGatewayId := none
    instanceProfileName := none }

/-- `generateConfigTemplate` from src/utls/generateConfigTemplate.ts: the
default configuration the engine writes back after teardown. -/
def generateConfigTemplate : Config :=
  { appName := ""
    region := ""
    instanceType := ""
    amiId := ""
    keyName := ""
    type := "load-balanced-web-service"
    port := 8080
    resources := templateResources
    accessKeyId := ""
    secretAccessKey := ""
    runCommand := ""
    codebasePath := ""
    isNodeProject := false
    domain := "" }

/-! ### Tagging and list-query filters (BaseService, SubnetService) -/
/-- `BaseService.getCommonTags`: the tags placed on every created resource. -/
def getCommonTags (appName uniqueId resourceName : String) :
    List (String × String) :=
  [("Name", resourceName),
   ("AsobiAppName", appName),
   ("UniqueId", uniqueId),
   ("CreatedBy", "asobi")]

/-- A remote `tag:K = v` filter matches a resource iff the resource carries a
tag with key `K` and value `v`. -/
def tagFilterMatches (key value : String) (tags : List (String × String)) :
    Bool :=
  tags.contains (key, value)

/-- The tag filters of `SubnetService.getSubnets`: the query requires
`tag:AppName = appName` and `tag:UniqueId = uniqueId` on the resource. -/
def subnetQueryMatches (appName uniqueId : String)
    (tags : List (String × String)) : Bool :=
  tagFilterMatches "AppName" appName tags &&
    tagFilterMatches "UniqueId" uniqueId tags

/-! ### Fixed-interval polling loops (EC2Service, ALBService)

Each loop is driven by a finite list of query outcomes (`Except Unit Bool`:
`.error` = the remote query threw, `.ok b` = the query returned and the
polled predicate evaluated to `b`).  The model returns the loop result
(`none` when the observation list ran out while the loop was still running,
i.e. the loop has not terminated within these queries) together with the
number of queries performed. -/
/-- `EC2Service.waitForInstanceToBeRunning`: on a thrown query the catch
branch sleeps and retries WITHOUT incrementing `attempts`. -/
def waitForInstanceToBeRunning :
    List (Except Unit Bool) → Nat → Nat → Option Bool × Nat
  | [], attempts, maxAttempts =>
      if attempts < maxAttempts then (none, 0) else (some false, 0)
  | o :: rest, attempts, maxAttempts =>
      if attempts < maxAttempts then
        match o with
        | .ok true => (some true, 1)
        | .ok false =>
            let r := waitForInstanceToBeRunning rest (attempts + 1) maxAttempts
            (r.1, r.2 + 1)
        | .error _ =>
            let r := waitForInstanceToBeRunning rest attempts maxAttempts
            (r.1, r.2 + 1)
      else (some false, 0)

/-- `EC2Service.waitForInstanceToBeTerminated`: identical loop structure,
also not counting thrown queries. -/
def waitForInstanceToBeTerminated :
    List (Except Unit Bool) → Nat → Nat → Option Bool × Nat
  | [], attempts, maxAttempts =>
      if attempts < maxAttempts then (none, 0) else (some false, 0)
  | o :: rest, attempts, maxAttempts =>
      if attempts < maxAttempts then
        match o with
        | .ok true => (some true, 1)
        | .ok false =>
            let r :=
              waitForInstanceToBeTerminated rest (attempts + 1) maxAttempts
            (r.1, r.2 + 1)
        | .error _ =>
            let r := waitForInstanceToBeTerminated rest attempts maxAttempts
            (r.1, r.2 + 1)
      else (some false, 0)

/-- `ALBService.waitForHealthCheck`: here the catch branch DOES increment
`attempts`, so a thrown query consumes budget. -/
def waitForHealthCheck :
    List (Except Unit Bool) → Nat → Nat → Option Bool × Nat
  | [], attempts, maxAttempts =>
      if attempts < maxAttempts then (none, 0) else (some false, 0)
  | o :: rest, attempts, maxAttempts =>
      if attempts < maxAttempts then
        match o with
        | .ok true => (some true, 1)
        | .ok false =>
            let r := waitForHealthCheck rest (attempts + 1) maxAttempts
            (r.1, r.2 + 1)
        | .error _ =>
            let r := waitForHealthCheck rest (attempts + 1) maxAttempts
            (r.1, r.2 + 1)
      else (some false, 0)

/-! ### Exponential-backoff propagation polling (IAMService.createInstanceProfile)

The readiness loop of `IAMService.createInstanceProfile` (lines 151-179):

    while (!isProfileReady && attempts < maxAttempts) {
      const delay = Math.min(baseDelayMs * Math.pow(1.5, attempts), maxDelayMs);
      isProfileReady = await this.checkResourceState(profileName);
      if (!isProfileReady) { attempts++; sleep(delay); }
    }
    if (!isProfileReady) throw InfrastructureError(..., "IAM_PROFILE_PROPAGATION_TIMEOUT")

`checks n` is the boolean outcome of the `n`-th `checkResourceState` call.
The recursion is structural on the remaining budget `maxAttempts - attempts`;
`attempts` is carried for the backoff exponent.  The result records whether
the profile became ready, the number of checks performed, and the list of
delays slept (in ms, as rationals). -/
def waitForProfileReadyAux (checks : Nat → Bool) (idx attempts : Nat)
    (remaining : Nat) (baseDelayMs maxDelayMs : ℚ) : Bool × Nat × List ℚ :=
  match remaining with
  | 0 => (false, 0, [])
  | r + 1 =>
      let delay := min (baseDelayMs * (3 / 2) ^ attempts) maxDelayMs
      if checks idx then (true, 1, [])
      else
        let rest :=
          waitForProfileReadyAux checks (idx + 1) (attempts + 1) r
            baseDelayMs maxDelayMs
        (rest.1, rest.2.1 + 1, delay :: rest.2.2)

/-- The propagation-wait portion of `IAMService.createInstanceProfile`,
starting from `attempts = 0`. -/
def waitForProfileReady (checks : Nat → Bool) (maxAttempts : Nat)
    (baseDelayMs maxDelayMs : ℚ) : Bool × Nat × List ℚ :=
  waitForProfileReadyAux checks 0 0 maxAttempts baseDelayMs maxDelayMs

/-- The tail of `IAMService.createInstanceProfile`: if the loop ended without
the profile becoming ready, a distinct propagation-timeout error is raised;
otherwise the profile name is returned. -/
def createInstanceProfilePoll (profileName : String) (checks : Nat → Bool)
    (maxAttempts : Nat) (baseDelayMs maxDelayMs : ℚ) :
    Except InfraError String × Nat × List ℚ :=
  let r := waitForProfileReady checks maxAttempts baseDelayMs maxDelayMs
  (if r.1 then .ok profileName
   else
     .error
       ⟨"Instance profile failed to become ready after " ++
           toString maxAttempts ++ " attempts",
         "IAM_PROFILE_PROPAGATION_TIMEOUT"⟩,
   r.2.1, r.2.2)

/-! ### Compute-instance creation with keypair compensation (EC2Service)

Errors as thrown in JS: either a typed `InfrastructureError` or a raw
(non-`InfrastructureError`) value such as an AWS SDK exception. -/
inductive JSError where
  | infra (message code : String)
  | raw (tag : String)
  deriving DecidableEq, Repr

structure EC2CreateOracle where
  /-- Outcome of `getInstanceProfileArn` (already wrapped into an
  `IAM_ERROR` by that method on failure). -/
  getInstanceProfileArn : Except JSError String
  /-- Outcome of `createKeyPair` (key pair name on success). -/
  createKeyPair : Except JSError String
  /-- Outcome of the `RunInstancesCommand`: `.ok none` models a response
  with no instance id, `.ok (some id)` a successful launch. -/
  runInstances : Except JSError (Option String)
  /-- Outcome of the remote `DeleteKeyPairCommand` inside `deleteKeyPair`. -/
  deleteKeyPair : Except String Unit

/-- `EC2Service.deleteKeyPair`: one remote delete command; on failure the
method throws `InfrastructureError("Failed to delete key pair: <name>",
"EC2_ERROR")`.  Returns the outcome and the number of remote keypair-delete
calls issued (always 1 per invocation). -/
def deleteKeyPair (keyPairName : String) (remote : Except String Unit) :
    Except JSError Unit × Nat :=
  match remote with
  | .ok _ => (.ok (), 1)
  | .error _ =>
      (.error (.infra ("Failed to delete key pair: " ++ keyPairName)
          "EC2_ERROR"), 1)

/-- `EC2Service.createEC2Instance`: resolve the profile ARN, create the
keypair, launch the instance; on ANY failure the catch block awaits
`deleteKeyPair()` (whose own failure supersedes the original error), then
rethrows an `InfrastructureError` unchanged, or wraps a raw error as a
generic `EC2_ERROR` (the source interpolates the `console` import named
`error`, never the caught exception, so the message is always
"Unknown error").  Returns the outcome and the number of remote
keypair-delete calls issued. -/
def createEC2Instance (keyPairName : String) (o : EC2CreateOracle) :
    Except JSError String × Nat :=
  let body : Except JSError String :=
    o.getInstanceProfileArn.bind fun _profileArn =>
      o.createKeyPair.bind fun _keyName =>
        o.runInstances.bind fun instanceId? =>
          match instanceId? with
          | none =>
              .error (.infra
                "Failed to get instance ID from response during instance creation"
                "EC2_ERROR")
          | some instanceId => .ok instanceId
  match body with
  | .ok instanceId => (.ok instanceId, 0)
  | .error e =>
      let cleanup := deleteKeyPair keyPairName o.deleteKeyPair
      match cleanup.1 with
      | .error deleteErr => (.error deleteErr, cleanup.2)
      | .ok _ =>
          match e with
          | .infra m c => (.error (.infra m c), cleanup.2)
          | .raw _ =>
              (.error (.infra "Failed to create EC2 instance: Unknown error"
                  "EC2_ERROR"), cleanup.2)

/-! ### Subnet CIDR allocation (SubnetService.createSubnets)

The allocator inlined in `SubnetService.createSubnets` (lines 33-68): split
the VPC CIDR on "/" and ".", then for `i < Math.min(2, zones.length)` pick
`"<p0>.<p1>.<subnetIndex>.0/24"`, bumping `subnetIndex` while the literal
string is in the existing-CIDR set (exact string comparison).

The decimal rendering of `subnetIndex` (JS template interpolation) is
modelled by `decString`; its injectivity justifies the search fuel. -/
def digitChar (d : Nat) : Char := Char.ofNat (48 + d)

/-- Decimal digits of `n`, most significant first; structural on a fuel
argument so that concrete values reduce by `rfl`. -/
def decDigitsAux : Nat → Nat → List Char
  | 0, _ => []
  | fuel + 1, n =>
      if n < 10 then [digitChar n]
      else decDigitsAux fuel (n / 10) ++ [digitChar (n % 10)]

def decDigits (n : Nat) : List Char := decDigitsAux (n + 1) n

def decString (n : Nat) : String := String.mk (decDigits n)

/-- The candidate subnet CIDR string built at line 50 of SubnetService.ts. -/
def subnetCidr (p0 p1 : String) (subnetIndex : Nat) : String :=
  p0 ++ "." ++ p1 ++ "." ++ decString subnetIndex ++ ".0/24"

/-- The do-while search for the next third octet whose candidate string is
not an existing CIDR.  Fuel is a modelling artifact for the unbounded JS
loop; `findFreeIdx_succeeds` shows fuel `existing.length + 1` never runs
out. -/
def findFreeIdx (existing : List String) (p0 p1 : String) :
    Nat → Nat → Option Nat
  | _idx, 0 => none
  | idx, fuel + 1 =>
      if existing.contains (subnetCidr p0 p1 idx) then
        findFreeIdx existing p0 p1 (idx + 1) fuel
      else some idx

/-- The `for i in 0 ..< k` loop threading `subnetIndex` across blocks. -/
def allocCidrsAux (existing : List String) (p0 p1 : String) :
    Nat → Nat → Option (List String)
  | _subnetIndex, 0 => some []
  | subnetIndex, k + 1 =>
      match findFreeIdx existing p0 p1 subnetIndex (existing.length + 1) with
      | none => none
      | some j =>
          match allocCidrsAux existing p0 p1 (j + 1) k with
          | none => none
          | some rest => some (subnetCidr p0 p1 j :: rest)

/-- JS `String.prototype.split` with a single-character separator, on the
character list of the string. -/
def splitOnChar (sep : Char) : List Char → List (List Char)
  | [] => [[]]
  | c :: rest =>
      let r := splitOnChar sep rest
      if c == sep then [] :: r
      else
        match r with
        | [] => [[c]]
        | g :: gs => (c :: g) :: gs

/-- JS `s.split(sep)` for a one-character separator. -/
def jsSplit (s : String) (sep : Char) : List String :=
  (splitOnChar sep s.data).map String.mk

/-- First two octet strings of the VPC CIDR, as computed by lines 34-36 of
SubnetService.ts (missing parts render as JS `undefined`). -/
def cidrParts (vpcCidrBlock : String) : String × String :=
  let baseCidr := (jsSplit vpcCidrBlock '/').headD ""
  let parts := jsSplit baseCidr '.'
  (parts.getD 0 "undefined", parts.getD 1 "undefined")

/-- The subnet-CIDR allocation performed by `SubnetService.createSubnets`
for a VPC CIDR, existing subnet CIDRs, and requested zone count. -/
def allocCidrs (vpcCidrBlock : String) (existing : List String)
    (zoneCount : Nat) : Option (List String) :=
  allocCidrsAux existing (cidrParts vpcCidrBlock).1
    (cidrParts vpcCidrBlock).2 1 (min 2 zoneCount)

/-! ### Compensating rollback (InfrastructureService.rollbackDeletion)

`rollbackDeletion` (part of InfrastructureService, lines 427-517) runs seven
guarded delete blocks inside a SINGLE try/catch: the first delete that
throws aborts the remaining blocks and the whole call throws
`InfrastructureError("Failed to complete rollback process", "ROLLBACK_ERROR")`.
Each block is `if (cond && !deletedResources.has(key)) { await op;
deletedResources.add(key) }`; the thrown exception is modelled by an error
flag that freezes the remaining steps. -/
structure RollbackOracle where
  terminateInstance : Except String Unit
  /-- `albService.deleteLoadBalancer` as invoked from the targetGroup block. -/
  deleteLoadBalancerTg : Except String Unit
  /-- `albService.deleteLoadBalancer` as invoked from the loadBalancer block. -/
  deleteLoadBalancerLb : Except String Unit
  deleteSecurityGroups : Except String Unit
  deleteSubnets : Except String Unit
  deleteVpc : Except String Unit
  deleteInstanceProfile : Except String Unit

structure RbState where
  deleted : List String
  trace : List String
  err : Option String
  deriving DecidableEq, Repr

/-- One `if (cond && !deleted.has(key)) { await op; deleted.add(key) }`
block; a pending exception skips the block. -/
def rbStep (s : RbState) (step : Bool × String × Except String Unit) :
    RbState :=
  if s.err.isSome then s
  else if step.1 && !(s.deleted.contains step.2.1) then
    match step.2.2 with
    | .ok _ =>
        { deleted := s.deleted ++ [step.2.1]
          trace := s.trace ++ [step.2.1]
          err := none }
    | .error e =>
        { deleted := s.deleted
          trace := s.trace ++ [step.2.1]
          err := some e }
  else s

/-- The seven guarded blocks of `rollbackDeletion`, in source order with the
source's guards (JS truthiness; `?.length` on the two array fields). -/
def rollbackSteps (res : Resources) (ro : RollbackOracle) :
    List (Bool × String × Except String Unit) :=
  [(truthyS res.instanceId, "instance", ro.terminateInstance),
   (truthyS res.targetGroupArn, "targetGroup", ro.deleteLoadBalancerTg),
   (truthyS res.loadBalancerArn, "loadBalancer", ro.deleteLoadBalancerLb),
   (decide (res.securityGroupIds.length ≠ 0), "securityGroups",
     ro.deleteSecurityGroups),
   (decide (res.subnetIds.length ≠ 0), "subnets", ro.deleteSubnets),
   (truthyS res.vpcId && truthyS res.routeTableId &&
       truthyS res.internetGatewayId, "vpc", ro.deleteVpc),
   (truthyS res.instanceProfileName, "instanceProfile",
     ro.deleteInstanceProfile)]

def rollbackError : InfraError :=
  ⟨"Failed to complete rollback process", "ROLLBACK_ERROR"⟩

/-- `InfrastructureService.rollbackDeletion`: returns the ordered list of
delete operations actually invoked and the call's outcome. -/
def rollbackDeletion (res : Resources) (deleted0 : List String)
    (ro : RollbackOracle) : List String × Except InfraError Unit :=
  (((rollbackSteps res ro).foldl rbStep ⟨deleted0, [], none⟩).trace,
   match ((rollbackSteps res ro).foldl rbStep ⟨deleted0, [], none⟩).err with
   | some _ => .error rollbackError
   | none => .ok ())

/-! #### Specification-side rendering of the abort-on-first-failure plan -/
/-- The delete operations the source's guards select (ignoring failures). -/
def activePlan (steps : List (Bool × String × Except String Unit))
    (deleted0 : List String) : List (String × Except String Unit) :=
  steps.filterMap fun step =>
    if step.1 && !(deleted0.contains step.2.1) then some step.2 else none

/-- Executing a plan that aborts at the first failing operation: the
attempted labels and the first error, if any. -/
def runPlanTrace : List (String × Except String Unit) →
    List String × Option String
  | [] => ([], none)
  | (k, .ok _) :: rest =>
      let r := runPlanTrace rest
      (k :: r.1, r.2)
  | (k, .error e) :: _ => ([k], some e)

/-! ### Teardown run (InfrastructureService.deleteInfrastructure)

`deleteInfrastructure` (lines 519-736): seven guarded delete steps, each
wrapped in `retryOperation` (which tries once and records a failure instead
of rethrowing), with the configuration re-persisted after steps 2-7 with the
step's Resource Set fields cleared UNconditionally, and finally overwritten
with `generateConfigTemplate()`.  The guards read the `resources` binding
captured before the first step, so later config updates do not affect them.
Steps 4 and 5 guard on the array fields themselves (`if
(resources.securityGroupIds)`), which is always truthy in JS, so they are
attempted unconditionally.  The `waitForInstanceToBeTerminated` call after
step 3 returns a Bool the source discards. -/
structure DeleteOracle where
  deregisterTarget : Except String Unit
  deleteLoadBalancer : Except String Unit
  terminateInstance : Except String Unit
  /-- Result of `waitForInstanceToBeTerminated`, discarded by the source. -/
  waitForInstanceToBeTerminated : Bool
  deleteSecurityGroups : Except String Unit
  deleteSubnets : Except String Unit
  deleteVpc : Except String Unit
  deleteInstanceProfile : Except String Unit

/-- `InfrastructureService.retryOperation`: despite its name and the
`maxRetries` parameter, it tries the operation exactly once and appends a
failure record instead of rethrowing. -/
def retryOperation (op : Except String Unit) (resourceName : String)
    (maxRetries : Nat) (failedResources : List (String × String)) :
    List (String × String) :=
  match op with
  | .ok _ => failedResources
  | .error e => failedResources ++ [(resourceName, e)]

structure DeleteRun where
  success : Bool
  error : Option String
  /-- Labels of the delete operations attempted, in order. -/
  attempts : List String
  /-- The `failedResources` list (resource label, error message). -/
  failed : List (String × String)
  /-- Configurations written through the persistence interface, in order. -/
  persisted : List Config
  finalConfig : Config
  deriving Repr

def deleteInfrastructure (cfg : Config) (o : DeleteOracle) : DeleteRun :=
  if cfg.appName == "" then
    { success := false
      error := some ("App " ++ cfg.appName ++ " not found")
      attempts := []
      failed := []
      persisted := []
      finalConfig := cfg }
  else
    let res := cfg.resources
    -- Step 1: deregister target
    let g1 := truthyS res.instanceId && truthyS res.targetGroupArn
    let a1 : List String := if g1 then ["target deregistration"] else []
    let f1 := if g1 then
        retryOperation o.deregisterTarget "target deregistration" 3 []
      else []
    -- Step 2: delete ALB and target group
    let g2 := truthyS res.loadBalancerArn && truthyS res.targetGroupArn
    let a2 := a1 ++ if g2 then ["load balancer"] else []
    let f2 := if g2 then
        retryOperation o.deleteLoadBalancer "load balancer" 3 f1
      else f1
    let cfg2 := { cfg with resources :=
      { cfg.resources with targetGroupArn := none, loadBalancerArn := none } }
    -- Step 3: terminate EC2 instance (then wait, result discarded)
    let g3 := truthyS res.instanceId
    let a3 := a2 ++ if g3 then ["EC2 instance"] else []
    let f3 := if g3 then
        retryOperation o.terminateInstance "EC2 instance" 3 f2
      else f2
    let cfg3 := { cfg2 with resources :=
      { cfg2.resources with instanceId := none } }
    -- Step 4: delete security groups (guard `if (resources.securityGroupIds)`
    -- is an array, hence always truthy)
    let a4 := a3 ++ ["security groups"]
    let f4 := retryOperation o.deleteSecurityGroups "security groups" 3 f3
    let cfg4 := { cfg3 with resources :=
      { cfg3.resources with securityGroupIds := [] } }
    -- Step 5: delete subnets (array guard, always truthy)
    let a5 := a4 ++ ["subnets"]
    let f5 := retryOperation o.deleteSubnets "subnets" 3 f4
    let cfg5 := { cfg4 with resources :=
      { cfg4.resources with subnetIds := [] } }
    -- Step 6: delete VPC and related resources
    let g6 := truthyS res.vpcId && truthyS res.routeTableId &&
      truthyS res.internetGatewayId
    let a6 := a5 ++ if g6 then ["VPC"] else []
    let f6 := if g6 then retryOperation o.deleteVpc "VPC" 3 f5 else f5
    let cfg6 := { cfg5 with resources :=
      { cfg5.resources with vpcId := none } }
    -- Step 7: delete IAM instance profile
    let g7 := truthyS res.instanceProfileName
    let a7 := a6 ++ if g7 then ["IAM instance profile"] else []
    let f7 := if g7 then
        retryOperation o.deleteInstanceProfile "IAM instance profile" 3 f6
      else f6
    let cfg7 := { cfg6 with resources :=
      { cfg6.resources with instanceProfileName := none } }
    { success := true
      error := if f7.length > 0 then some "Some resources could not be deleted"
        else none
      attempts := a7
      failed := f7
      persisted := [cfg2, cfg3, cfg4, cfg5, cfg6, cfg7,
        generateConfigTemplate]
      finalConfig := generateConfigTemplate }

/-! #### Specification-side characterisations of the teardown run -/
/-- The failure record a single delete operation contributes. -/
def failOf (op : Except String Unit) (label : String) :
    List (String × String) :=
  match op with
  | .ok _ => []
  | .error e => [(label, e)]

/-- The stages a teardown run attempts, by the source's guards, independent
of any operation's outcome. -/
def specDeleteAttempts (res : Resources) : List String :=
  (if truthyS res.instanceId && truthyS res.targetGroupArn then
    ["target deregistration"] else []) ++
  (if truthyS res.loadBalancerArn && truthyS res.targetGroupArn then
    ["load balancer"] else []) ++
  (if truthyS res.instanceId then ["EC2 instance"] else []) ++
  ["security groups"] ++ ["subnets"] ++
  (if truthyS res.vpcId && truthyS res.routeTableId &&
      truthyS res.internetGatewayId then ["VPC"] else []) ++
  (if truthyS res.instanceProfileName then ["IAM instance profile"] else [])

/-- Exactly the attempted stages whose delete operation raised an error, in
stage order, with their error messages. -/
def specDeleteFailures (res : Resources) (o : DeleteOracle) :
    List (String × String) :=
  (if truthyS res.instanceId && truthyS res.targetGroupArn then
    failOf o.deregisterTarget "target deregistration" else []) ++
  (if truthyS res.loadBalancerArn && truthyS res.targetGroupArn then
    failOf o.deleteLoadBalancer "load balancer" else []) ++
  (if truthyS res.instanceId then failOf o.terminateInstance "EC2 instance"
    else []) ++
  failOf o.deleteSecurityGroups "security groups" ++
  failOf o.deleteSubnets "subnets" ++
  (if truthyS res.vpcId && truthyS res.routeTableId &&
      truthyS res.internetGatewayId then failOf o.deleteVpc "VPC" else []) ++
  (if truthyS res.instanceProfileName then
    failOf o.deleteInstanceProfile "IAM instance profile" else [])

/-- The sequence of configurations a completed teardown run persists:
after each of steps 2-7 the step's fields are cleared (successful or not),
and finally the whole configuration is replaced by the template. -/
def deleteConfigSeq (cfg : Config) : List Config :=
  let c2 := { cfg with resources :=
    { cfg.resources with targetGroupArn := none, loadBalancerArn := none } }
  let c3 := { c2 with resources := { c2.resources with instanceId := none } }
  let c4 := { c3 with resources :=
    { c3.resources with securityGroupIds := [] } }
  let c5 := { c4 with resources := { c4.resources with subnetIds := [] } }
  let c6 := { c5 with resources := { c5.resources with vpcId := none } }
  let c7 := { c6 with resources :=
    { c6.resources with instanceProfileName := none } }
  [c2, c3, c4, c5, c6, c7, generateConfigTemplate]

/-! ### Provisioning run (InfrastructureService.createInfrastructure)

`createInfrastructure` (lines 232-406): after the confirmation prompt the
config is persisted, then the stages run strictly in order, each successful
stage writing its identifiers into `this.config.resources` and persisting.
Any thrown error is caught once: `rollbackDeletion(this.config.resources,
new Set())` runs, and the call returns `{success: false, error}` — unless the
rollback itself throws, in which case the whole call rejects with
`ROLLBACK_ERROR`.  The `waitForInstanceToBeRunning` result is discarded; the
health check runs only for Node projects and a false result throws
`ALB_ERROR`. -/
structure VpcDetails where
  vpcId : String
  routeTableId : String
  internetGatewayId : String
  cidrBlock : String
  availabilityZones : List String
  deriving DecidableEq, Repr

structure CreateOracle where
  accountDetails : Except InfraError (String × String)
  /-- The interactive confirmation answer. -/
  confirm : Bool
  selectOrCreateVpc : Except InfraError VpcDetails
  createSubnets : Except InfraError (List String)
  createSecurityGroups : Except InfraError (List String)
  createInstanceProfile : Except InfraError String
  createEC2Instance : Except InfraError String
  /-- Result of `waitForInstanceToBeRunning`, discarded by the source. -/
  waitForInstanceToBeRunning : Bool
  createLoadBalancer : Except InfraError (String × String)
  registerTarget : Except InfraError Unit
  waitForHealthCheck : Bool

structure CreateResp where
  success : Bool
  error : Option String
  resources : Option Resources
  deriving DecidableEq, Repr

structure CreateRun where
  result : Except InfraError CreateResp
  persisted : List Config
  /-- Delete operations invoked by the compensating rollback, in order. -/
  rollbackTrace : List String
  finalConfig : Config
  deriving Repr

/-- The catch block of `createInfrastructure`. -/
def createCatch (cfg : Config) (persisted : List Config) (e : InfraError)
    (ro : RollbackOracle) : CreateRun :=
  let rb := rollbackDeletion cfg.resources [] ro
  match rb.2 with
  | .error re =>
      { result := .error re
        persisted := persisted
        rollbackTrace := rb.1
        finalConfig := cfg }
  | .ok _ =>
      { result := .ok ⟨false, some e.message, none⟩
        persisted := persisted
        rollbackTrace := rb.1
        finalConfig := cfg }

def createInfrastructure (cfg0 : Config) (o : CreateOracle)
    (ro : RollbackOracle) : CreateRun :=
  match o.accountDetails with
  | .error e => createCatch cfg0 [] e ro
  | .ok _ =>
    if !o.confirm then
      { result := .ok ⟨false, some "Operation cancelled by user", none⟩
        persisted := []
        rollbackTrace := []
        finalConfig := cfg0 }
    else
      let p0 := [cfg0]
      match o.selectOrCreateVpc with
      | .error e => createCatch cfg0 p0 e ro
      | .ok v =>
        let cfg1 := { cfg0 with resources :=
          { cfg0.resources with
              vpcId := some v.vpcId
              routeTableId := some v.routeTableId
              internetGatewayId := some v.internetGatewayId } }
        let p1 := p0 ++ [cfg1]
        match o.createSubnets with
        | .error e => createCatch cfg1 p1 e ro
        | .ok subnetIds =>
          let cfg2 := { cfg1 with resources :=
            { cfg1.resources with subnetIds := subnetIds } }
          let p2 := p1 ++ [cfg2]
          match o.createSecurityGroups with
          | .error e => createCatch cfg2 p2 e ro
          | .ok securityGroupIds =>
            let cfg3 := { cfg2 with resources :=
              { cfg2.resources with securityGroupIds := securityGroupIds } }
            let p3 := p2 ++ [cfg3]
            match o.createInstanceProfile with
            | .error e => createCatch cfg3 p3 e ro
            | .ok instanceProfileName =>
              let cfg4 := { cfg3 with resources :=
                { cfg3.resources with
                    instanceProfileName := some instanceProfileName } }
              let p4 := p3 ++ [cfg4]
              match o.createEC2Instance with
              | .error e => createCatch cfg4 p4 e ro
              | .ok instanceId =>
                let cfg5 := { cfg4 with resources :=
                  { cfg4.resources with instanceId := some instanceId } }
                let p5 := p4 ++ [cfg5]
                -- waitForInstanceToBeRunning: boolean result discarded
                match o.createLoadBalancer with
                | .error e => createCatch cfg5 p5 e ro
                | .ok alb =>
                  let cfg6 := { cfg5 with resources :=
                    { cfg5.resources with
                        loadBalancerArn := some alb.1
                        targetGroupArn := some alb.2 } }
                  let p6 := p5 ++ [cfg6]
                  match o.registerTarget with
                  | .error e => createCatch cfg6 p6 e ro
                  | .ok _ =>
                    if cfg0.isNodeProject && !o.waitForHealthCheck then
                      createCatch cfg6 p6
                        ⟨"Target failed health check", "ALB_ERROR"⟩ ro
                    else
                      { result := .ok ⟨true, none, some cfg6.resources⟩
                        persisted := p6 ++ [cfg6]
                        rollbackTrace := []
                        finalConfig := cfg6 }

/-! #### Specification-side view of a run failing at stage `k` -/
/-- Stage outcomes in creation order: 0 VPC, 1 subnets, 2 security groups,
3 identity profile, 4 compute instance, 5 load balancer, 6 target
registration, 7 health check (failing only for Node projects). -/
def stageOutcome (o : CreateOracle) (isNode : Bool) : Nat →
    Except InfraError Unit
  | 0 => o.selectOrCreateVpc.map fun _ => ()
  | 1 => o.createSubnets.map fun _ => ()
  | 2 => o.createSecurityGroups.map fun _ => ()
  | 3 => o.createInstanceProfile.map fun _ => ()
  | 4 => o.createEC2Instance.map fun _ => ()
  | 5 => o.createLoadBalancer.map fun _ => ()
  | 6 => o.registerTarget
  | 7 => if isNode && !o.waitForHealthCheck then
      .error ⟨"Target failed health check", "ALB_ERROR"⟩
    else .ok ()
  | _ + 8 => .ok ()

/-- A create run fails at stage `k` (0-indexed): stages before `k`
succeeded and stage `k`'s outcome is an error. -/
def failsAt (o : CreateOracle) (isNode : Bool) (k : Nat) : Prop :=
  k < 8 ∧ (stageOutcome o isNode k).isOk = false ∧
    ∀ j < k, (stageOutcome o isNode j).isOk = true

instance failsAtDecidable (o : CreateOracle) (isNode : Bool) (k : Nat) :
    Decidable (failsAt o isNode k) :=
  decidable_of_iff
    (k < 8 ∧ (stageOutcome o isNode k).isOk = false ∧
      ∀ j < k, (stageOutcome o isNode j).isOk = true) Iff.rfl

/-- The Resource Set fields written by a successful stage `j`. -/
def stageUpdate (o : CreateOracle) (j : Nat) (res : Resources) : Resources :=
  match j with
  | 0 =>
      match o.selectOrCreateVpc with
      | .ok v =>
          { res with
              vpcId := some v.vpcId
              routeTableId := some v.routeTableId
              internetGatewayId := some v.internetGatewayId }
      | .error _ => res
  | 1 =>
      match o.createSubnets with
      | .ok s => { res with subnetIds := s }
      | .error _ => res
  | 2 =>
      match o.createSecurityGroups with
      | .ok s => { res with securityGroupIds := s }
      | .error _ => res
  | 3 =>
      match o.createInstanceProfile with
      | .ok p => { res with instanceProfileName := some p }
      | .error _ => res
  | 4 =>
      match o.createEC2Instance with
      | .ok i => { res with instanceId := some i }
      | .error _ => res
  | 5 =>
      match o.createLoadBalancer with
      | .ok alb =>
          { res with
              loadBalancerArn := some alb.1
              targetGroupArn := some alb.2 }
      | .error _ => res
  | _ => res

/-- The Resource Set after the first `k` stages succeeded. -/
def createdUpTo (res0 : Resources) (o : CreateOracle) : Nat → Resources
  | 0 => res0
  | k + 1 => stageUpdate o k (createdUpTo res0 o k)

/-! ### Concrete fixtures used by witnesses and counterexamples -/
/-- A fully-populated Resource Set, as after a complete create run. -/
def resFull : Resources :=
  { vpcId := some "vpc-1"
    subnetIds := ["s-1", "s-2"]
    securityGroupIds := ["g-1", "g-2"]
    instanceId := some "i-1"
    loadBalancerArn := some "lb-1"
    targetGroupArn := some "tg-1"
    certificateArn := none
    routeTableId := some "rtb-1"
    internetGatewayId := some "igw-1"
    instanceProfileName := some "prof-1" }

def cfgFull : Config :=
  { appName := "demo"
    region := "us-east-1"
    instanceType := "t2.micro"
    amiId := "ami-1"
    keyName := "kp"
    type := "background-service"
    port := 3000
    resources := resFull
    accessKeyId := "AK"
    secretAccessKey := "SK"
    runCommand := ""
    codebasePath := ""
    isNodeProject := false
    domain := "" }

def cfgEmpty : Config := { cfgFull with resources := templateResources }

def oDeleteMixed : DeleteOracle :=
  { deregisterTarget := .ok ()
    deleteLoadBalancer := .error "still referenced"
    terminateInstance := .ok ()
    waitForInstanceToBeTerminated := true
    deleteSecurityGroups := .error "dependency violation"
    deleteSubnets := .ok ()
    deleteVpc := .ok ()
    deleteInstanceProfile := .ok () }

def oDeleteAllOk : DeleteOracle :=
  { deregisterTarget := .ok ()
    deleteLoadBalancer := .ok ()
    terminateInstance := .ok ()
    waitForInstanceToBeTerminated := true
    deleteSecurityGroups := .ok ()
    deleteSubnets := .ok ()
    deleteVpc := .ok ()
    deleteInstanceProfile := .ok () }

def roAllOk : RollbackOracle :=
  { terminateInstance := .ok ()
    deleteLoadBalancerTg := .ok ()
    deleteLoadBalancerLb := .ok ()
    deleteSecurityGroups := .ok ()
    deleteSubnets := .ok ()
    deleteVpc := .ok ()
    deleteInstanceProfile := .ok () }

def roTermFail : RollbackOracle :=
  { roAllOk with terminateInstance := .error "termination refused" }

/-- A partially-created Resource Set: instance and one subnet exist. -/
def resPartial : Resources :=
  { templateResources with instanceId := some "i-1", subnetIds := ["s-1"] }

/-- A create-run oracle whose load-balancer stage (stage 6 of 8) fails and
whose earlier stages succeed. -/
def oCreateAlbFail : CreateOracle :=
  { accountDetails := .ok ("123456789012", "arn:aws:iam::123456789012:user/dev")
    confirm := true
    selectOrCreateVpc := .ok
      ⟨"vpc-1", "rtb-1", "igw-1", "10.0.0.0/16", ["ap-south-1a", "ap-south-1b"]⟩
    createSubnets := .ok ["s-1", "s-2"]
    createSecurityGroups := .ok ["g-1", "g-2"]
    createInstanceProfile := .ok "prof-1"
    createEC2Instance := .ok "i-1"
    waitForInstanceToBeRunning := true
    createLoadBalancer := .error ⟨"Failed to create load balancer", "ALB_ERROR"⟩
    registerTarget := .ok ()
    waitForHealthCheck := true }

/-- The EC2-creation oracle where the launch call throws a raw AWS error and
the compensating keypair delete also fails. -/
def oEC2LaunchAndDeleteFail : EC2CreateOracle :=
  { getInstanceProfileArn := .ok "arn:profile"
    createKeyPair := .ok "demo-kp"
    runInstances := .error (.raw "LaunchFailure")
    deleteKeyPair := .error "denied" }

/-- The outcome-dependent part of the claimed behaviour of
`createEC2Instance`: the error the catch block rethrows once the keypair
cleanup has succeeded. -/
def propagatedCreateError (e : JSError) : JSError :=
  match e with
  | .infra m c => .infra m c
  | .raw _ => .infra "Failed to create EC2 instance: Unknown error" "EC2_ERROR"

/-- The error with which the body of `createEC2Instance` fails at or after
the launch call (`none` when the launch succeeds with an instance id). -/
def launchFailureError (runInstances : Except JSError (Option String)) :
    Option JSError :=
  match runInstances with
  | .error e => some e
  | .ok none =>
      some (.infra
        "Failed to get instance ID from response during instance creation"
        "EC2_ERROR")
  | .ok (some _) => none

/-! ## Theorems -/

/-! #### Injectivity of the decimal rendering -/
theorem digitChar_toNat {d : Nat} (h : d < 10) : (digitChar d).toNat = 48 + d := by
  interval_cases d <;> rfl

theorem decDigitsAux_foldl (f : Nat) :
    ∀ n a, n < f →
      (decDigitsAux f n).foldl (fun acc c => 10 * acc + (c.toNat - 48)) a =
        a * 10 ^ (decDigitsAux f n).length + n := by
  induction f with
  | zero => intro n a h; omega
  | succ f ih =>
      intro n a h
      by_cases h10 : n < 10
      · simp only [decDigitsAux, if_pos h10, List.foldl_cons, List.foldl_nil,
          List.length_cons, List.length_nil]
        rw [digitChar_toNat h10]
        ring_nf
        omega
      · have hpos : 10 ≤ n := by omega
        have hdiv : n / 10 < f := by
          have := Nat.div_lt_self (by omega : 0 < n) (by omega : 1 < 10)
          omega
        simp only [decDigitsAux, if_neg h10, List.foldl_append,
          List.foldl_cons, List.foldl_nil, List.length_append,
          List.length_cons, List.length_nil]
        rw [ih (n / 10) a hdiv, digitChar_toNat (Nat.mod_lt n (by omega))]
        have hmod : 48 + n % 10 - 48 = n % 10 := by omega
        rw [hmod, pow_succ]
        have hdm := Nat.div_add_mod n 10
        generalize (10 : Nat) ^ (decDigitsAux f (n / 10)).length = P
        ring_nf
        omega

theorem decVal_decDigits (n : Nat) :
    (decDigits n).foldl (fun acc c => 10 * acc + (c.toNat - 48)) 0 = n := by
  have := decDigitsAux_foldl (n + 1) n 0 (Nat.lt_succ_self n)
  simpa [decDigits] using this

theorem decDigits_injective : Function.Injective decDigits := by
  intro m n h
  have hm := decVal_decDigits m
  have hn := decVal_decDigits n
  rw [h] at hm
  omega

theorem decString_injective : Function.Injective decString := by
  intro m n h
  apply decDigits_injective
  simpa [decString] using congrArg String.data h

theorem subnetCidr_injective (p0 p1 : String) :
    Function.Injective (subnetCidr p0 p1) := by
  intro i j h
  have hdata := congrArg String.data h
  simp only [subnetCidr, String.data_append, List.append_assoc] at hdata
  have h1 := List.append_cancel_left hdata
  have h2 := List.append_cancel_left h1
  have h3 := List.append_cancel_left h2
  have h4 := List.append_cancel_left h3
  have h5 : (decString i).data = (decString j).data :=
    List.append_cancel_right h4
  exact decString_injective (String.ext h5)

/-! #### The bounded search always succeeds -/
theorem findFreeIdx_none (existing : List String) (p0 p1 : String) :
    ∀ fuel idx, findFreeIdx existing p0 p1 idx fuel = none →
      ∀ j < fuel, subnetCidr p0 p1 (idx + j) ∈ existing := by
  intro fuel
  induction fuel with
  | zero => intro idx _ j hj; omega
  | succ fuel ih =>
      intro idx hnone j hj
      by_cases hc : existing.contains (subnetCidr p0 p1 idx)
      · rw [findFreeIdx, if_pos hc] at hnone
        match j, hj with
        | 0, _ => simpa using hc
        | j + 1, hj =>
            have := ih (idx + 1) hnone j (by omega)
            simpa [Nat.add_assoc, Nat.add_comm 1 j] using this
      · rw [findFreeIdx, if_neg hc] at hnone
        exact absurd hnone (by simp)

theorem findFreeIdx_succeeds (existing : List String) (p0 p1 : String)
    (idx : Nat) :
    ∃ j, findFreeIdx existing p0 p1 idx (existing.length + 1) = some j := by
  cases hfind : findFreeIdx existing p0 p1 idx (existing.length + 1) with
  | some j => exact ⟨j, rfl⟩
  | none =>
      exfalso
      have hall := findFreeIdx_none existing p0 p1 _ _ hfind
      set L := (List.range (existing.length + 1)).map
        (fun j => subnetCidr p0 p1 (idx + j)) with hL
      have hnodup : L.Nodup := by
        refine (List.nodup_range _).map ?_
        intro a b hab
        have := subnetCidr_injective p0 p1 hab
        omega
      have hsub : ∀ x ∈ L, x ∈ existing := by
        intro x hx
        rw [hL, List.mem_map] at hx
        obtain ⟨j, hj, rfl⟩ := hx
        exact hall j (List.mem_range.mp hj)
      have hsubF : L.toFinset ⊆ existing.toFinset := by
        intro x hx
        rw [List.mem_toFinset] at hx ⊢
        exact hsub x hx
      have hcard : L.toFinset.card ≤ existing.toFinset.card :=
        Finset.card_le_card hsubF
      rw [List.toFinset_card_of_nodup hnodup] at hcard
      have hlen : L.length = existing.length + 1 := by simp [hL]
      have := List.toFinset_card_le existing
      omega

theorem findFreeIdx_spec (existing : List String) (p0 p1 : String) :
    ∀ fuel idx j, findFreeIdx existing p0 p1 idx fuel = some j →
      subnetCidr p0 p1 j ∉ existing := by
  intro fuel
  induction fuel with
  | zero => intro idx j h; simp [findFreeIdx] at h
  | succ fuel ih =>
      intro idx j h
      by_cases hc : existing.contains (subnetCidr p0 p1 idx)
      · rw [findFreeIdx, if_pos hc] at h
        exact ih (idx + 1) j h
      · rw [findFreeIdx, if_neg hc] at h
        cases h
        simpa using hc

theorem allocCidrsAux_spec (existing : List String) (p0 p1 : String) :
    ∀ k idx, ∃ bs, allocCidrsAux existing p0 p1 idx k = some bs ∧
      bs.length = k ∧
      ∀ b ∈ bs, b ∉ existing ∧ ∃ j, b = subnetCidr p0 p1 j := by
  intro k
  induction k with
  | zero => intro idx; exact ⟨[], rfl, rfl, by simp⟩
  | succ k ih =>
      intro idx
      obtain ⟨j, hj⟩ := findFreeIdx_succeeds existing p0 p1 idx
      obtain ⟨rest, hrest, hlen, hmem⟩ := ih (j + 1)
      refine ⟨subnetCidr p0 p1 j :: rest, ?_, by simp [hlen], ?_⟩
      · simp [allocCidrsAux, hj, hrest]
      · intro b hb
        rcases List.mem_cons.mp hb with rfl | hb
        · exact ⟨findFreeIdx_spec existing p0 p1 _ _ _ hj, j, rfl⟩
        · exact hmem b hb

theorem rbStep_frozen (s : RbState) (step : Bool × String × Except String Unit)
    (h : s.err.isSome) : rbStep s step = s := by
  simp [rbStep, h]

theorem foldl_rbStep_frozen (steps : List (Bool × String × Except String Unit))
    (s : RbState) (h : s.err.isSome) : steps.foldl rbStep s = s := by
  induction steps with
  | nil => rfl
  | cons step rest ih => rw [List.foldl_cons, rbStep_frozen s step h]; exact ih

theorem foldl_rbStep_spec
    (steps : List (Bool × String × Except String Unit)) :
    ∀ s : RbState, s.err = none →
      (steps.map (fun st => st.2.1)).Nodup →
      (steps.foldl rbStep s).trace =
          s.trace ++ (runPlanTrace (activePlan steps s.deleted)).1 ∧
        (steps.foldl rbStep s).err =
          (runPlanTrace (activePlan steps s.deleted)).2 := by
  induction steps with
  | nil => intro s hs _; simp [activePlan, runPlanTrace, hs]
  | cons step rest ih =>
      intro s hs hnodup
      rw [List.map_cons, List.nodup_cons] at hnodup
      obtain ⟨hhead, htail⟩ := hnodup
      rw [List.foldl_cons]
      rcases hst2 : step.2 with ⟨key, op⟩
      cases hst1 : step.1 with
      | false =>
          have hstep : rbStep s step = s := by
            simp [rbStep, hs, hst1]
          have hplan : activePlan (step :: rest) s.deleted =
              activePlan rest s.deleted := by
            simp [activePlan, hst1]
          rw [hstep, hplan]
          exact ih s hs htail
      | true =>
          cases hmem : s.deleted.contains key with
          | true =>
              have hmemp : key ∈ s.deleted := by simpa using hmem
              have hstep : rbStep s step = s := by
                simp [rbStep, hs, hst1, hst2, hmemp]
              have hplan : activePlan (step :: rest) s.deleted =
                  activePlan rest s.deleted := by
                simp [activePlan, hst1, hst2, hmemp]
              rw [hstep, hplan]
              exact ih s hs htail
          | false =>
              have hmemp : key ∉ s.deleted := by simpa using hmem
              have hplan : activePlan (step :: rest) s.deleted =
                  (key, op) :: activePlan rest s.deleted := by
                simp [activePlan, hst1, hst2, hmemp]
              rw [hplan]
              cases hop : op with
              | ok u =>
                  have hstep : rbStep s step =
                      { deleted := s.deleted ++ [key]
                        trace := s.trace ++ [key]
                        err := none } := by
                    simp [rbStep, hs, hst1, hst2, hmemp, hop]
                  rw [hstep]
                  have hplan2 : activePlan rest (s.deleted ++ [key]) =
                      activePlan rest s.deleted := by
                    unfold activePlan
                    apply List.filterMap_congr
                    intro st hst
                    have hne : ¬(st.2.1 = key) := by
                      intro hc
                      apply hhead
                      have : st.2.1 ∈ List.map (fun x => x.2.1) rest :=
                        List.mem_map_of_mem (fun x => x.2.1) hst
                      rw [hc] at this
                      rw [hst2]
                      exact this
                    by_cases hm2 : st.2.1 ∈ s.deleted
                    · simp [hm2]
                    · have hm3 : st.2.1 ∉ s.deleted ++ [key] := by
                        simp [hm2, hne]
                      simp [hm2, hm3]
                  have := ih { deleted := s.deleted ++ [key]
                               trace := s.trace ++ [key]
                               err := none } rfl htail
                  rw [hplan2] at this
                  obtain ⟨h1, h2⟩ := this
                  refine ⟨?_, ?_⟩
                  · rw [h1]
                    simp [runPlanTrace]
                  · rw [h2]
                    simp [runPlanTrace]
              | error e =>
                  have hstep : rbStep s step =
                      { deleted := s.deleted
                        trace := s.trace ++ [key]
                        err := some e } := by
                    simp [rbStep, hs, hst1, hst2, hmemp, hop]
                  rw [hstep, foldl_rbStep_frozen rest _ (by simp)]
                  simp [runPlanTrace]

/-- `rollbackDeletion` attempts exactly the guard-selected deletes up to and
including the first failing one, and raises `ROLLBACK_ERROR` iff one
failed. -/
theorem rollbackDeletion_spec (res : Resources) (deleted0 : List String)
    (ro : RollbackOracle) :
    rollbackDeletion res deleted0 ro =
      ((runPlanTrace (activePlan (rollbackSteps res ro) deleted0)).1,
        match (runPlanTrace (activePlan (rollbackSteps res ro) deleted0)).2 with
        | some _ => .error rollbackError
        | none => .ok ()) := by
  have hnodup : ((rollbackSteps res ro).map (fun st => st.2.1)).Nodup := by
    simp [rollbackSteps]
  obtain ⟨h1, h2⟩ := foldl_rbStep_spec (rollbackSteps res ro)
    ⟨deleted0, [], none⟩ rfl hnodup
  unfold rollbackDeletion
  rw [h1, h2]
  rfl

theorem retryOperation_eq (op : Except String Unit) (l : String) (n : Nat)
    (f : List (String × String)) :
    retryOperation op l n f = f ++ failOf op l := by
  cases op <;> simp [retryOperation, failOf]

theorem ite_append_evalf {α : Type} (g : Bool) (f x : List α) :
    (if g then f ++ x else f) = f ++ (if g then x else []) := by
  cases g <;> simp

/-- Full characterisation of a teardown run on a named app. -/
theorem deleteInfrastructure_run (cfg : Config) (o : DeleteOracle)
    (h : ¬(cfg.appName = "")) :
    deleteInfrastructure cfg o =
      { success := true
        error := if (specDeleteFailures cfg.resources o).length > 0 then
            some "Some resources could not be deleted"
          else none
        attempts := specDeleteAttempts cfg.resources
        failed := specDeleteFailures cfg.resources o
        persisted := deleteConfigSeq cfg
        finalConfig := generateConfigTemplate } := by
  have hb : ¬((cfg.appName == "") = true) := by simpa using h
  unfold deleteInfrastructure
  rw [if_neg hb]
  simp only [retryOperation_eq]
  simp only [ite_append_evalf]
  simp only [specDeleteAttempts, specDeleteFailures, deleteConfigSeq,
    List.nil_append, List.append_assoc]

theorem exceptIsOk_exists {ε α : Type} (x : Except ε α) (h : x.isOk = true) :
    ∃ a, x = .ok a := by
  cases x with
  | error e => simp [Except.isOk, Except.toBool] at h
  | ok a => exact ⟨a, rfl⟩

theorem exceptIsOk_map {ε α β : Type} (x : Except ε α) (f : α → β) :
    (x.map f).isOk = x.isOk := by
  cases x <;> rfl

theorem createCatch_rollbackTrace (cfg : Config) (p : List Config)
    (e : InfraError) (ro : RollbackOracle) :
    (createCatch cfg p e ro).rollbackTrace =
      (rollbackDeletion cfg.resources [] ro).1 := by
  unfold createCatch
  generalize rollbackDeletion cfg.resources [] ro = rb
  obtain ⟨t, r⟩ := rb
  cases r <;> rfl

theorem createCatch_finalConfig (cfg : Config) (p : List Config)
    (e : InfraError) (ro : RollbackOracle) :
    (createCatch cfg p e ro).finalConfig = cfg := by
  unfold createCatch
  generalize rollbackDeletion cfg.resources [] ro = rb
  obtain ⟨t, r⟩ := rb
  cases r <;> rfl

/-- A create run that aborts at stage `k` hands the Resource Set built by
stages `0..k-1` to the compensating rollback unchanged, and leaves exactly
that Resource Set in the in-memory configuration afterwards. -/
theorem createInfrastructure_failsAt (cfg0 : Config) (o : CreateOracle)
    (ro : RollbackOracle) (k : Nat)
    (hacct : o.accountDetails.isOk = true) (hconfirm : o.confirm = true)
    (hfail : failsAt o cfg0.isNodeProject k) :
    (createInfrastructure cfg0 o ro).rollbackTrace =
        (rollbackDeletion (createdUpTo cfg0.resources o k) [] ro).1 ∧
      (createInfrastructure cfg0 o ro).finalConfig.resources =
        createdUpTo cfg0.resources o k := by
  obtain ⟨hk, hkf, hprev⟩ := hfail
  obtain ⟨acct, hacct'⟩ := exceptIsOk_exists _ hacct
  interval_cases k
  · -- fails at VPC creation
    rcases hv : o.selectOrCreateVpc with e | v
    case ok => simp [stageOutcome, hv, Except.isOk, Except.toBool, Except.map] at hkf
    have heq : createInfrastructure cfg0 o ro = createCatch cfg0 [cfg0] e ro := by
      simp [createInfrastructure, hacct', hconfirm, hv]
    rw [heq, createCatch_rollbackTrace, createCatch_finalConfig]
    exact ⟨rfl, rfl⟩
  · -- fails at subnet creation
    have h0 := hprev 0 (by omega)
    rw [stageOutcome, exceptIsOk_map] at h0
    obtain ⟨v, hv⟩ := exceptIsOk_exists _ h0
    rcases hs : o.createSubnets with e | s
    case ok => simp [stageOutcome, hs, Except.isOk, Except.toBool, Except.map] at hkf
    have heq : (createInfrastructure cfg0 o ro).rollbackTrace =
          (createCatch { cfg0 with resources :=
            { cfg0.resources with
                vpcId := some v.vpcId
                routeTableId := some v.routeTableId
                internetGatewayId := some v.internetGatewayId } }
            [cfg0, { cfg0 with resources :=
            { cfg0.resources with
                vpcId := some v.vpcId
                routeTableId := some v.routeTableId
                internetGatewayId := some v.internetGatewayId } }] e ro).rollbackTrace ∧
        (createInfrastructure cfg0 o ro).finalConfig =
          (createCatch { cfg0 with resources :=
            { cfg0.resources with
                vpcId := some v.vpcId
                routeTableId := some v.routeTableId
                internetGatewayId := some v.internetGatewayId } }
            [cfg0, { cfg0 with resources :=
            { cfg0.resources with
                vpcId := some v.vpcId
                routeTableId := some v.routeTableId
                internetGatewayId := some v.internetGatewayId } }] e ro).finalConfig := by
      constructor <;> simp [createInfrastructure, hacct', hconfirm, hv, hs]
    rw [heq.1, heq.2, createCatch_rollbackTrace, createCatch_finalConfig]
    refine ⟨?_, ?_⟩ <;> simp [createdUpTo, stageUpdate, hv]
  · -- fails at security-group creation
    have h0 := hprev 0 (by omega)
    rw [stageOutcome, exceptIsOk_map] at h0
    obtain ⟨v, hv⟩ := exceptIsOk_exists _ h0
    have h1 := hprev 1 (by omega)
    rw [stageOutcome, exceptIsOk_map] at h1
    obtain ⟨s, hs⟩ := exceptIsOk_exists _ h1
    rcases hg : o.createSecurityGroups with e | g
    case ok => simp [stageOutcome, hg, Except.isOk, Except.toBool, Except.map] at hkf
    refine ⟨?_, ?_⟩ <;>
      simp [createInfrastructure, hacct', hconfirm, hv, hs, hg,
        createCatch_rollbackTrace, createCatch_finalConfig,
        createdUpTo, stageUpdate]
  · -- fails at identity-profile creation
    have h0 := hprev 0 (by omega)
    rw [stageOutcome, exceptIsOk_map] at h0
    obtain ⟨v, hv⟩ := exceptIsOk_exists _ h0
    have h1 := hprev 1 (by omega)
    rw [stageOutcome, exceptIsOk_map] at h1
    obtain ⟨s, hs⟩ := exceptIsOk_exists _ h1
    have h2 := hprev 2 (by omega)
    rw [stageOutcome, exceptIsOk_map] at h2
    obtain ⟨g, hg⟩ := exceptIsOk_exists _ h2
    rcases hp : o.createInstanceProfile with e | p
    case ok => simp [stageOutcome, hp, Except.isOk, Except.toBool, Except.map] at hkf
    refine ⟨?_, ?_⟩ <;>
      simp [createInfrastructure, hacct', hconfirm, hv, hs, hg, hp,
        createCatch_rollbackTrace, createCatch_finalConfig,
        createdUpTo, stageUpdate]
  · -- fails at compute-instance creation
    have h0 := hprev 0 (by omega)
    rw [stageOutcome, exceptIsOk_map] at h0
    obtain ⟨v, hv⟩ := exceptIsOk_exists _ h0
    have h1 := hprev 1 (by omega)
    rw [stageOutcome, exceptIsOk_map] at h1
    obtain ⟨s, hs⟩ := exceptIsOk_exists _ h1
    have h2 := hprev 2 (by omega)
    rw [stageOutcome, exceptIsOk_map] at h2
    obtain ⟨g, hg⟩ := exceptIsOk_exists _ h2
    have h3 := hprev 3 (by omega)
    rw [stageOutcome, exceptIsOk_map] at h3
    obtain ⟨p, hp⟩ := exceptIsOk_exists _ h3
    rcases hi : o.createEC2Instance with e | i
    case ok => simp [stageOutcome, hi, Except.isOk, Except.toBool, Except.map] at hkf
    refine ⟨?_, ?_⟩ <;>
      simp [createInfrastructure, hacct', hconfirm, hv, hs, hg, hp, hi,
        createCatch_rollbackTrace, createCatch_finalConfig,
        createdUpTo, stageUpdate]
  · -- fails at load-balancer creation
    have h0 := hprev 0 (by omega)
    rw [stageOutcome, exceptIsOk_map] at h0
    obtain ⟨v, hv⟩ := exceptIsOk_exists _ h0
    have h1 := hprev 1 (by omega)
    rw [stageOutcome, exceptIsOk_map] at h1
    obtain ⟨s, hs⟩ := exceptIsOk_exists _ h1
    have h2 := hprev 2 (by omega)
    rw [stageOutcome, exceptIsOk_map] at h2
    obtain ⟨g, hg⟩ := exceptIsOk_exists _ h2
    have h3 := hprev 3 (by omega)
    rw [stageOutcome, exceptIsOk_map] at h3
    obtain ⟨p, hp⟩ := exceptIsOk_exists _ h3
    have h4 := hprev 4 (by omega)
    rw [stageOutcome, exceptIsOk_map] at h4
    obtain ⟨i, hi⟩ := exceptIsOk_exists _ h4
    rcases ha : o.createLoadBalancer with e | alb
    case ok => simp [stageOutcome, ha, Except.isOk, Except.toBool, Except.map] at hkf
    refine ⟨?_, ?_⟩ <;>
      simp [createInfrastructure, hacct', hconfirm, hv, hs, hg, hp, hi, ha,
        createCatch_rollbackTrace, createCatch_finalConfig,
        createdUpTo, stageUpdate]
  · -- fails at target registration
    have h0 := hprev 0 (by omega)
    rw [stageOutcome, exceptIsOk_map] at h0
    obtain ⟨v, hv⟩ := exceptIsOk_exists _ h0
    have h1 := hprev 1 (by omega)
    rw [stageOutcome, exceptIsOk_map] at h1
    obtain ⟨s, hs⟩ := exceptIsOk_exists _ h1
    have h2 := hprev 2 (by omega)
    rw [stageOutcome, exceptIsOk_map] at h2
    obtain ⟨g, hg⟩ := exceptIsOk_exists _ h2
    have h3 := hprev 3 (by omega)
    rw [stageOutcome, exceptIsOk_map] at h3
    obtain ⟨p, hp⟩ := exceptIsOk_exists _ h3
    have h4 := hprev 4 (by omega)
    rw [stageOutcome, exceptIsOk_map] at h4
    obtain ⟨i, hi⟩ := exceptIsOk_exists _ h4
    have h5 := hprev 5 (by omega)
    rw [stageOutcome, exceptIsOk_map] at h5
    obtain ⟨alb, ha⟩ := exceptIsOk_exists _ h5
    rcases hr : o.registerTarget with e | u
    case ok => simp [stageOutcome, hr, Except.isOk, Except.toBool, Except.map] at hkf
    refine ⟨?_, ?_⟩ <;>
      simp [createInfrastructure, hacct', hconfirm, hv, hs, hg, hp, hi, ha,
        hr, createCatch_rollbackTrace, createCatch_finalConfig,
        createdUpTo, stageUpdate]
  · -- fails at the health check
    have h0 := hprev 0 (by omega)
    rw [stageOutcome, exceptIsOk_map] at h0
    obtain ⟨v, hv⟩ := exceptIsOk_exists _ h0
    have h1 := hprev 1 (by omega)
    rw [stageOutcome, exceptIsOk_map] at h1
    obtain ⟨s, hs⟩ := exceptIsOk_exists _ h1
    have h2 := hprev 2 (by omega)
    rw [stageOutcome, exceptIsOk_map] at h2
    obtain ⟨g, hg⟩ := exceptIsOk_exists _ h2
    have h3 := hprev 3 (by omega)
    rw [stageOutcome, exceptIsOk_map] at h3
    obtain ⟨p, hp⟩ := exceptIsOk_exists _ h3
    have h4 := hprev 4 (by omega)
    rw [stageOutcome, exceptIsOk_map] at h4
    obtain ⟨i, hi⟩ := exceptIsOk_exists _ h4
    have h5 := hprev 5 (by omega)
    rw [stageOutcome, exceptIsOk_map] at h5
    obtain ⟨alb, ha⟩ := exceptIsOk_exists _ h5
    have h6 := hprev 6 (by omega)
    rw [stageOutcome] at h6
    obtain ⟨u, hr⟩ := exceptIsOk_exists _ h6
    have hhc : (cfg0.isNodeProject && !o.waitForHealthCheck) = true := by
      by_contra hcontra
      rw [stageOutcome] at hkf
      rw [if_neg (by simpa using hcontra)] at hkf
      simp [Except.isOk, Except.toBool] at hkf
    refine ⟨?_, ?_⟩ <;>
      simp [createInfrastructure, hacct', hconfirm, hv, hs, hg, hp, hi, ha,
        hr, hhc, createCatch_rollbackTrace, createCatch_finalConfig,
        createdUpTo, stageUpdate]

theorem createCatch_persisted (cfg : Config) (p : List Config)
    (e : InfraError) (ro : RollbackOracle) :
    (createCatch cfg p e ro).persisted = p := by
  unfold createCatch
  generalize rollbackDeletion cfg.resources [] ro = rb
  obtain ⟨t, r⟩ := rb
  cases r <;> rfl

/-! #### Backoff-loop lemmas -/
theorem waitForProfileReadyAux_alwaysFalse (base maxD : ℚ) :
    ∀ (r idx a : Nat),
      waitForProfileReadyAux (fun _ => false) idx a r base maxD =
        (false, r,
          (List.range r).map (fun i => min (base * (3 / 2) ^ (a + i)) maxD)) := by
  intro r
  induction r with
  | zero => intro idx a; simp [waitForProfileReadyAux]
  | succ r ih =>
      intro idx a
      rw [waitForProfileReadyAux]
      simp only [Bool.false_eq_true, if_false, ih (idx + 1) (a + 1)]
      refine Prod.ext rfl (Prod.ext (by simp) ?_)
      simp only [List.range_succ_eq_map, List.map_cons, List.map_map]
      rw [Nat.add_zero]
      refine congrArg (fun l => _ :: l) ?_
      apply List.map_congr_left
      intro i _
      simp only [Function.comp_apply]
      rw [show a + 1 + i = a + (i + 1) by omega]

theorem waitForProfileReadyAux_delays (checks : Nat → Bool)
    (base maxD : ℚ) :
    ∀ (r idx a : Nat),
      (waitForProfileReadyAux checks idx a r base maxD).2.2 =
        (List.range
            (waitForProfileReadyAux checks idx a r base maxD).2.2.length).map
          (fun i => min (base * (3 / 2) ^ (a + i)) maxD) := by
  intro r
  induction r with
  | zero => intro idx a; simp [waitForProfileReadyAux]
  | succ r ih =>
      intro idx a
      rw [waitForProfileReadyAux]
      by_cases hc : checks idx
      · simp [hc]
      · simp only [hc, Bool.false_eq_true, if_false, List.length_cons]
        rw [ih (idx + 1) (a + 1)]
        simp only [List.length_map, List.length_range,
          List.range_succ_eq_map, List.map_cons, List.map_map]
        rw [Nat.add_zero]
        refine congrArg (fun l => _ :: l) ?_
        apply List.map_congr_left
        intro i _
        simp only [Function.comp_apply]
        rw [show a + 1 + i = a + (i + 1) by omega]

/-! #### Create-path field/stage invariant -/
/-- Starting from an empty Resource Set, every configuration persisted by a
create run has a stage's fields populated only if that stage's create
operation succeeded. -/
theorem createInfrastructure_fields (cfg0 : Config) (o : CreateOracle)
    (ro : RollbackOracle) (h0 : cfg0.resources = templateResources) :
    ∀ c ∈ (createInfrastructure cfg0 o ro).persisted,
      (c.resources.vpcId ≠ none → o.selectOrCreateVpc.isOk = true) ∧
      (c.resources.routeTableId ≠ none → o.selectOrCreateVpc.isOk = true) ∧
      (c.resources.internetGatewayId ≠ none →
        o.selectOrCreateVpc.isOk = true) ∧
      (c.resources.subnetIds ≠ [] → o.createSubnets.isOk = true) ∧
      (c.resources.securityGroupIds ≠ [] →
        o.createSecurityGroups.isOk = true) ∧
      (c.resources.instanceProfileName ≠ none →
        o.createInstanceProfile.isOk = true) ∧
      (c.resources.instanceId ≠ none → o.createEC2Instance.isOk = true) ∧
      (c.resources.loadBalancerArn ≠ none →
        o.createLoadBalancer.isOk = true) ∧
      (c.resources.targetGroupArn ≠ none →
        o.createLoadBalancer.isOk = true) := by
  intro c hc
  rcases ha : o.accountDetails with e | acct
  · simp [createInfrastructure, ha, createCatch_persisted] at hc
  · rcases hcf : o.confirm with _ | _
    · simp [createInfrastructure, ha, hcf] at hc
    · rcases hv : o.selectOrCreateVpc with e | v
      · simp [createInfrastructure, ha, hcf, hv, createCatch_persisted] at hc
        subst hc
        refine ⟨?_, ?_, ?_, ?_, ?_, ?_, ?_, ?_, ?_⟩ <;>
          simp [h0, templateResources]
      · rcases hs : o.createSubnets with e | s
        · simp [createInfrastructure, ha, hcf, hv, hs,
            createCatch_persisted] at hc
          rcases hc with rfl | rfl <;>
            refine ⟨?_, ?_, ?_, ?_, ?_, ?_, ?_, ?_, ?_⟩ <;>
              simp [h0, templateResources, hv, Except.isOk, Except.toBool]
        · rcases hg : o.createSecurityGroups with e | g
          · simp [createInfrastructure, ha, hcf, hv, hs, hg,
              createCatch_persisted] at hc
            rcases hc with rfl | rfl | rfl <;>
              refine ⟨?_, ?_, ?_, ?_, ?_, ?_, ?_, ?_, ?_⟩ <;>
                simp [h0, templateResources, hv, hs, Except.isOk,
                  Except.toBool]
          · rcases hp : o.createInstanceProfile with e | p
            · simp [createInfrastructure, ha, hcf, hv, hs, hg, hp,
                createCatch_persisted] at hc
              rcases hc with rfl | rfl | rfl | rfl <;>
                refine ⟨?_, ?_, ?_, ?_, ?_, ?_, ?_, ?_, ?_⟩ <;>
                  simp [h0, templateResources, hv, hs, hg, Except.isOk,
                    Except.toBool]
            · rcases hi : o.createEC2Instance with e | i
              · simp [createInfrastructure, ha, hcf, hv, hs, hg, hp, hi,
                  createCatch_persisted] at hc
                rcases hc with rfl | rfl | rfl | rfl | rfl <;>
                  refine ⟨?_, ?_, ?_, ?_, ?_, ?_, ?_, ?_, ?_⟩ <;>
                    simp [h0, templateResources, hv, hs, hg, hp,
                      Except.isOk, Except.toBool]
              · rcases hlb : o.createLoadBalancer with e | alb
                · simp [createInfrastructure, ha, hcf, hv, hs, hg, hp, hi,
                    hlb, createCatch_persisted] at hc
                  rcases hc with rfl | rfl | rfl | rfl | rfl | rfl <;>
                    refine ⟨?_, ?_, ?_, ?_, ?_, ?_, ?_, ?_, ?_⟩ <;>
                      simp [h0, templateResources, hv, hs, hg, hp, hi,
                        Except.isOk, Except.toBool]
                · rcases hr : o.registerTarget with e | u
                  · simp [createInfrastructure, ha, hcf, hv, hs, hg, hp,
                      hi, hlb, hr, createCatch_persisted] at hc
                    rcases hc with rfl | rfl | rfl | rfl | rfl | rfl | rfl <;>
                      refine ⟨?_, ?_, ?_, ?_, ?_, ?_, ?_, ?_, ?_⟩ <;>
                        simp [h0, templateResources, hv, hs, hg, hp, hi,
                          hlb, Except.isOk, Except.toBool]
                  · by_cases hhc : (cfg0.isNodeProject &&
                        !o.waitForHealthCheck) = true
                    · simp [createInfrastructure, ha, hcf, hv, hs, hg, hp,
                        hi, hlb, hr, hhc, createCatch_persisted] at hc
                      rcases hc with rfl | rfl | rfl | rfl | rfl | rfl | rfl <;>
                        refine ⟨?_, ?_, ?_, ?_, ?_, ?_, ?_, ?_, ?_⟩ <;>
                          simp [h0, templateResources, hv, hs, hg, hp, hi,
                            hlb, Except.isOk, Except.toBool]
                    · simp [createInfrastructure, ha, hcf, hv, hs, hg, hp,
                        hi, hlb, hr, hhc, createCatch_persisted] at hc
                      rcases hc with rfl | rfl | rfl | rfl | rfl | rfl | rfl <;>
                        refine ⟨?_, ?_, ?_, ?_, ?_, ?_, ?_, ?_, ?_⟩ <;>
                          simp [h0, templateResources, hv, hs, hg, hp, hi,
                            hlb, Except.isOk, Except.toBool]

/-! ### Helper lemmas for stage-attempt counting -/
theorem count_ite_single_ne {P : Prop} [Decidable P] {x y : String}
    (h : ¬(x = y)) :
    ((if P then [x] else []) : List String).count y = 0 := by
  split <;> simp [List.count_cons, h]

theorem count_ite_single_self {P : Prop} [Decidable P] (x : String) :
    ((if P then [x] else []) : List String).count x =
      if P then 1 else 0 := by
  split <;> simp

/-! ### Fixed-interval loop lemmas -/
theorem waitForHealthCheck_immediate (rest : List (Except Unit Bool))
    (a m : Nat) (h : a < m) :
    waitForHealthCheck (.ok true :: rest) a m = (some true, 1) := by
  simp [waitForHealthCheck, h]

theorem waitForInstanceToBeRunning_immediate
    (rest : List (Except Unit Bool)) (a m : Nat) (h : a < m) :
    waitForInstanceToBeRunning (.ok true :: rest) a m = (some true, 1) := by
  simp [waitForInstanceToBeRunning, h]

theorem waitForInstanceToBeTerminated_immediate
    (rest : List (Except Unit Bool)) (a m : Nat) (h : a < m) :
    waitForInstanceToBeTerminated (.ok true :: rest) a m = (some true, 1) := by
  simp [waitForInstanceToBeTerminated, h]

theorem waitForHealthCheck_allErrors :
    ∀ (k a m : Nat), a + k = m →
      waitForHealthCheck (List.replicate k (.error ())) a m =
        (some false, k) := by
  intro k
  induction k with
  | zero =>
      intro a m h
      simp [waitForHealthCheck, show ¬(a < m) by omega]
  | succ k ih =>
      intro a m h
      rw [List.replicate_succ, waitForHealthCheck, if_pos (by omega)]
      rw [ih (a + 1) m (by omega)]

theorem waitForHealthCheck_allFalse :
    ∀ (k a m : Nat), a + k = m →
      waitForHealthCheck (List.replicate k (.ok false)) a m =
        (some false, k) := by
  intro k
  induction k with
  | zero =>
      intro a m h
      simp [waitForHealthCheck, show ¬(a < m) by omega]
  | succ k ih =>
      intro a m h
      rw [List.replicate_succ, waitForHealthCheck, if_pos (by omega)]
      rw [ih (a + 1) m (by omega)]

theorem waitForInstanceToBeRunning_allFalse :
    ∀ (k a m : Nat), a + k = m →
      waitForInstanceToBeRunning (List.replicate k (.ok false)) a m =
        (some false, k) := by
  intro k
  induction k with
  | zero =>
      intro a m h
      simp [waitForInstanceToBeRunning, show ¬(a < m) by omega]
  | succ k ih =>
      intro a m h
      rw [List.replicate_succ, waitForInstanceToBeRunning, if_pos (by omega)]
      rw [ih (a + 1) m (by omega)]

theorem waitForInstanceToBeTerminated_allFalse :
    ∀ (k a m : Nat), a + k = m →
      waitForInstanceToBeTerminated (List.replicate k (.ok false)) a m =
        (some false, k) := by
  intro k
  induction k with
  | zero =>
      intro a m h
      simp [waitForInstanceToBeTerminated, show ¬(a < m) by omega]
  | succ k ih =>
      intro a m h
      rw [List.replicate_succ, waitForInstanceToBeTerminated,
        if_pos (by omega)]
      rw [ih (a + 1) m (by omega)]

theorem waitForInstanceToBeRunning_allErrors :
    ∀ (k a m : Nat), a < m →
      waitForInstanceToBeRunning (List.replicate k (.error ())) a m =
        (none, k) := by
  intro k
  induction k with
  | zero => intro a m h; simp [waitForInstanceToBeRunning, h]
  | succ k ih =>
      intro a m h
      rw [List.replicate_succ, waitForInstanceToBeRunning, if_pos h]
      rw [ih a m h]

theorem waitForInstanceToBeTerminated_allErrors :
    ∀ (k a m : Nat), a < m →
      waitForInstanceToBeTerminated (List.replicate k (.error ())) a m =
        (none, k) := by
  intro k
  induction k with
  | zero => intro a m h; simp [waitForInstanceToBeTerminated, h]
  | succ k ih =>
      intro a m h
      rw [List.replicate_succ, waitForInstanceToBeTerminated, if_pos h]
      rw [ih a m h]

/-- C2: the claim says a compensating-rollback deletion failure is
logged and the rollback continues to the next resource.  In the code all
rollback blocks share one try/catch, so the first failing delete aborts the
remaining ones: with an instance and a subnet to roll back and instance
termination failing, the subnet delete is never attempted and the call
raises ROLLBACK_ERROR. -/
theorem rollbackDeletion_aborts_counterexample :
    (rollbackDeletion resPartial [] roTermFail).1 = ["instance"] ∧
      "subnets" ∉ (rollbackDeletion resPartial [] roTermFail).1 ∧
      (rollbackDeletion resPartial [] roTermFail).2 = .error rollbackError := by
  decide

/-- C2 (amended): the compensating rollback attempts the guard-selected
deletes in source order only up to and including the FIRST failing one,
aborting the rest and raising ROLLBACK_ERROR; with no failure all selected
deletes run and the call succeeds. -/
theorem rollbackDeletion_abort_on_first_failure (res : Resources)
    (deleted0 : List String) (ro : RollbackOracle) :
    rollbackDeletion res deleted0 ro =
      ((runPlanTrace (activePlan (rollbackSteps res ro) deleted0)).1,
        match (runPlanTrace (activePlan (rollbackSteps res ro) deleted0)).2 with
        | some _ => .error rollbackError
        | none => .ok ()) :=
  rollbackDeletion_spec res deleted0 ro

/-- C5: the claim says every fixed-interval polling loop counts a failed
query toward the budget, so an always-failing query cannot run forever and
the loop returns false after `maxAttempts`.  In
`EC2Service.waitForInstanceToBeRunning` the catch branch does not increment
`attempts`: with `maxAttempts = 1`, three consecutive throwing queries are
all performed and the loop is still running (no `false` returned), and the
same holds for the terminated-wait loop. -/
theorem ec2Wait_uncounted_failure_counterexample :
    waitForInstanceToBeRunning (List.replicate 3 (.error ())) 0 1 =
        (none, 3) ∧
      waitForInstanceToBeTerminated (List.replicate 3 (.error ())) 0 1 =
        (none, 3) ∧
      ¬(3 ≤ 1) := by
  refine ⟨by decide, by decide, by omega⟩

/-- C5 (amended): a satisfied predicate returns true immediately after one
query in all three loops; `ALBService.waitForHealthCheck` counts failed
queries toward the budget and returns false after `maxAttempts`; the two
EC2 loops return false after `maxAttempts` unsuccessful (non-throwing)
queries, but retry throwing queries WITHOUT counting them, so under
persistent query failure they keep polling past any budget. -/
theorem fixedIntervalPolling_amended :
    (∀ (rest : List (Except Unit Bool)) (a m : Nat), a < m →
        waitForInstanceToBeRunning (.ok true :: rest) a m = (some true, 1) ∧
        waitForInstanceToBeTerminated (.ok true :: rest) a m =
          (some true, 1) ∧
        waitForHealthCheck (.ok true :: rest) a m = (some true, 1)) ∧
      (∀ m : Nat,
        waitForHealthCheck (List.replicate m (.error ())) 0 m =
          (some false, m)) ∧
      (∀ m : Nat,
        waitForInstanceToBeRunning (List.replicate m (.ok false)) 0 m =
            (some false, m) ∧
          waitForInstanceToBeTerminated (List.replicate m (.ok false)) 0 m =
            (some false, m) ∧
          waitForHealthCheck (List.replicate m (.ok false)) 0 m =
            (some false, m)) ∧
      (∀ (k m : Nat), 0 < m →
        waitForInstanceToBeRunning (List.replicate k (.error ())) 0 m =
            (none, k) ∧
          waitForInstanceToBeTerminated (List.replicate k (.error ())) 0 m =
            (none, k)) := by
  refine ⟨?_, ?_, ?_, ?_⟩
  · intro rest a m h
    exact ⟨waitForInstanceToBeRunning_immediate rest a m h,
      waitForInstanceToBeTerminated_immediate rest a m h,
      waitForHealthCheck_immediate rest a m h⟩
  · intro m; exact waitForHealthCheck_allErrors m 0 m (by omega)
  · intro m
    exact ⟨waitForInstanceToBeRunning_allFalse m 0 m (by omega),
      waitForInstanceToBeTerminated_allFalse m 0 m (by omega),
      waitForHealthCheck_allFalse m 0 m (by omega)⟩
  · intro k m h
    exact ⟨waitForInstanceToBeRunning_allErrors k 0 m h,
      waitForInstanceToBeTerminated_allErrors k 0 m h⟩

theorem fixedIntervalPolling_witness :
    (0 < 3 ∧ 0 < 2) ∧
      waitForInstanceToBeRunning [.ok true] 0 3 = (some true, 1) ∧
      waitForHealthCheck (List.replicate 2 (.error ())) 0 2 =
        (some false, 2) ∧
      waitForInstanceToBeRunning (List.replicate 4 (.ok false)) 0 4 =
        (some false, 4) ∧
      waitForInstanceToBeRunning (List.replicate 5 (.error ())) 0 2 =
        (none, 5) :=
  ⟨⟨by decide, by decide⟩,
    (fixedIntervalPolling_amended.1 [] 0 3 (by decide)).1,
    fixedIntervalPolling_amended.2.1 2,
    (fixedIntervalPolling_amended.2.2.1 4).1,
    (fixedIntervalPolling_amended.2.2.2 5 2 (by decide)).1⟩

/-- C6: the identity-profile propagation poll sleeps
`min(baseDelay * 1.5^attempt, maxDelay)` before each retry; with an
always-failing readiness check it performs exactly `maxAttempts` checks and
raises the distinct IAM_PROFILE_PROPAGATION_TIMEOUT error kind instead of
returning false. -/
theorem createInstanceProfilePoll_spec_C6 (profileName : String)
    (maxA : Nat) (base maxD : ℚ) :
    (createInstanceProfilePoll profileName (fun _ => false) maxA base
          maxD).2.1 = maxA ∧
      (createInstanceProfilePoll profileName (fun _ => false) maxA base
          maxD).1 =
        .error ⟨"Instance profile failed to become ready after " ++
            toString maxA ++ " attempts", "IAM_PROFILE_PROPAGATION_TIMEOUT"⟩ ∧
      (createInstanceProfilePoll profileName (fun _ => false) maxA base
          maxD).2.2 =
        (List.range maxA).map (fun i => min (base * (3 / 2) ^ i) maxD) ∧
      ∀ checks : Nat → Bool,
        (createInstanceProfilePoll profileName checks maxA base maxD).2.2 =
          (List.range
              (createInstanceProfilePoll profileName checks maxA base
                  maxD).2.2.length).map
            (fun i => min (base * (3 / 2) ^ i) maxD) := by
  have hfalse := waitForProfileReadyAux_alwaysFalse base maxD maxA 0 0
  refine ⟨?_, ?_, ?_, ?_⟩
  · simp [createInstanceProfilePoll, waitForProfileReady, hfalse]
  · simp [createInstanceProfilePoll, waitForProfileReady, hfalse]
  · simp [createInstanceProfilePoll, waitForProfileReady, hfalse]
  · intro checks
    have hdel := waitForProfileReadyAux_delays checks base maxD maxA 0 0
    simp only [createInstanceProfilePoll, waitForProfileReady]
    simpa using hdel

/-- C7: the claim says the allocator returns N blocks for N requested
zones.  The loop is capped at `Math.min(2, zones.length)`: with base
10.0.0.0/16, no existing subnets and 3 zones it allocates only 2 blocks. -/
theorem allocCidrs_count_counterexample :
    (allocCidrs "10.0.0.0/16" [] 3).map List.length = some 2 ∧
      ¬((2 : Nat) = 3) := by
  refine ⟨rfl, by decide⟩

/-- C7 (amended): for every existing-block set E and requested zone count
N, the allocator returns `min 2 N` blocks, none string-equal to a member of
E (conflict detection is exact string comparison), all of the shape
`<octet0>.<octet1>.<k>.0/24` built from the network CIDR's first two
octets; for base 10.0.0.0/16 with no existing subnets and 2 zones it
returns 10.0.1.0/24 and 10.0.2.0/24. -/
theorem allocCidrs_amended_spec :
    (∀ (vpcCidrBlock : String) (existing : List String) (zoneCount : Nat),
        ∃ bs, allocCidrs vpcCidrBlock existing zoneCount = some bs ∧
          bs.length = min 2 zoneCount ∧
          ∀ b ∈ bs, b ∉ existing ∧
            ∃ j, b = subnetCidr (cidrParts vpcCidrBlock).1
              (cidrParts vpcCidrBlock).2 j) ∧
      allocCidrs "10.0.0.0/16" [] 2 = some ["10.0.1.0/24", "10.0.2.0/24"] := by
  constructor
  · intro vpcCidrBlock existing zoneCount
    obtain ⟨bs, h1, h2, h3⟩ := allocCidrsAux_spec existing
      (cidrParts vpcCidrBlock).1 (cidrParts vpcCidrBlock).2
      (min 2 zoneCount) 1
    exact ⟨bs, by simpa [allocCidrs] using h1, h2, h3⟩
  · rfl

/-- C8: the claim says an instance-creation failure after the keypair was
created issues exactly one keypair delete and then propagates the original
creation error.  When the compensating delete itself fails, its
`EC2_ERROR` supersedes the original launch error: here the launch threw
`LaunchFailure` but the caller sees the keypair-delete failure. -/
theorem createEC2Instance_deleteError_counterexample :
    createEC2Instance "demo-kp" oEC2LaunchAndDeleteFail =
        (.error (.infra "Failed to delete key pair: demo-kp" "EC2_ERROR"),
          1) ∧
      (JSError.infra "Failed to delete key pair: demo-kp" "EC2_ERROR" ≠
        .raw "LaunchFailure") := by
  refine ⟨by decide, by decide⟩

/-- C8 (amended): when creation fails at or after the launch call (keypair
already created), exactly one keypair-delete call is issued; if the delete
succeeds, the original creation error propagates (`InfrastructureError`s
unchanged, raw errors wrapped as a generic EC2_ERROR); if the delete fails,
the keypair-delete error propagates instead. -/
theorem createEC2Instance_compensation_amended (name : String)
    (o : EC2CreateOracle) (arn kp : String) (e0 : JSError)
    (harn : o.getInstanceProfileArn = .ok arn)
    (hkp : o.createKeyPair = .ok kp)
    (hfail : launchFailureError o.runInstances = some e0) :
    (createEC2Instance name o).2 = 1 ∧
      (o.deleteKeyPair = .ok () →
        (createEC2Instance name o).1 = .error (propagatedCreateError e0)) ∧
      (∀ d, o.deleteKeyPair = .error d →
        (createEC2Instance name o).1 =
          .error (.infra ("Failed to delete key pair: " ++ name)
            "EC2_ERROR")) := by
  have hbody : (o.getInstanceProfileArn.bind fun _profileArn =>
      o.createKeyPair.bind fun _keyName =>
        o.runInstances.bind fun instanceId? =>
          match instanceId? with
          | none => Except.error (JSError.infra
              "Failed to get instance ID from response during instance creation"
              "EC2_ERROR")
          | some instanceId => Except.ok instanceId) = .error e0 := by
    rw [harn, hkp]
    rcases hrun : o.runInstances with e | iopt
    · rw [hrun] at hfail
      simp only [launchFailureError, Option.some.injEq] at hfail
      subst hfail
      rfl
    · rcases iopt with _ | i
      · rw [hrun] at hfail
        simp only [launchFailureError, Option.some.injEq] at hfail
        subst hfail
        rfl
      · rw [hrun] at hfail
        simp [launchFailureError] at hfail
  refine ⟨?_, ?_, ?_⟩
  · rcases hd : o.deleteKeyPair with d | u <;>
      simp only [createEC2Instance, hbody, deleteKeyPair, hd] <;>
      (rcases e0 with ⟨m, c⟩ | t <;> rfl)
  · intro hd
    rcases e0 with ⟨m, c⟩ | t <;>
      simp [createEC2Instance, hbody, deleteKeyPair, hd,
        propagatedCreateError]
  · intro d hd
    rcases e0 with ⟨m, c⟩ | t <;>
      simp [createEC2Instance, hbody, deleteKeyPair, hd]

theorem createEC2Instance_compensation_witness :
    (oEC2LaunchAndDeleteFail.getInstanceProfileArn = .ok "arn:profile" ∧
        oEC2LaunchAndDeleteFail.createKeyPair = .ok "demo-kp" ∧
        launchFailureError oEC2LaunchAndDeleteFail.runInstances =
          some (.raw "LaunchFailure")) ∧
      (createEC2Instance "demo-kp" oEC2LaunchAndDeleteFail).2 = 1 ∧
      (oEC2LaunchAndDeleteFail.deleteKeyPair = .ok () →
        (createEC2Instance "demo-kp" oEC2LaunchAndDeleteFail).1 =
          .error (propagatedCreateError (.raw "LaunchFailure"))) ∧
      (∀ d, oEC2LaunchAndDeleteFail.deleteKeyPair = .error d →
        (createEC2Instance "demo-kp" oEC2LaunchAndDeleteFail).1 =
          .error (.infra ("Failed to delete key pair: " ++ "demo-kp")
            "EC2_ERROR")) :=
  ⟨⟨by decide, by decide, by decide⟩,
    createEC2Instance_compensation_amended "demo-kp" oEC2LaunchAndDeleteFail
      "arn:profile" "demo-kp" (.raw "LaunchFailure") (by decide) (by decide)
      (by decide)⟩

/-- C9: resources are tagged with keys Name / AsobiAppName / UniqueId /
CreatedBy, but the list queries filter by `tag:AppName` (and
`tag:UniqueId`): no resource tagged by `getCommonTags` can ever match the
subnet list query, whatever application name and unique id either side
uses — the claim (and the spec's stated intent) that creation tags and
query filters use the same keys is violated by the code. -/
theorem createdTags_never_match_listQuery
    (appName uniqueId resourceName qApp qUid : String) :
    subnetQueryMatches qApp qUid
      (getCommonTags appName uniqueId resourceName) = false := by
  rfl

/-- C1: in a delete run on a named app, every stage whose Resource Set
field is non-null (for a coherent Resource Set: load-balancer and
target-group ARNs set together and only with an instance, route table and
gateway set with the VPC) has its delete operation attempted exactly once,
independently of every other stage's outcome; the recorded failure list
contains exactly the attempted stages whose delete raised an error, with
their messages, in stage order; and the call returns success=true, carrying
the advisory message exactly when the failure list is non-empty. -/
theorem deleteInfrastructure_attempts_exactly_once (cfg : Config)
    (o : DeleteOracle) (happ : ¬(cfg.appName = ""))
    (htglb : truthyS cfg.resources.loadBalancerArn =
      truthyS cfg.resources.targetGroupArn)
    (htginst : truthyS cfg.resources.targetGroupArn = true →
      truthyS cfg.resources.instanceId = true)
    (hrtb : truthyS cfg.resources.vpcId = true →
      truthyS cfg.resources.routeTableId = true)
    (higw : truthyS cfg.resources.vpcId = true →
      truthyS cfg.resources.internetGatewayId = true) :
    (deleteInfrastructure cfg o).attempts = specDeleteAttempts cfg.resources ∧
      (truthyS cfg.resources.targetGroupArn = true →
        (deleteInfrastructure cfg o).attempts.count "target deregistration" =
            1 ∧
          (deleteInfrastructure cfg o).attempts.count "load balancer" = 1) ∧
      (truthyS cfg.resources.instanceId = true →
        (deleteInfrastructure cfg o).attempts.count "EC2 instance" = 1) ∧
      (deleteInfrastructure cfg o).attempts.count "security groups" = 1 ∧
      (deleteInfrastructure cfg o).attempts.count "subnets" = 1 ∧
      (truthyS cfg.resources.vpcId = true →
        (deleteInfrastructure cfg o).attempts.count "VPC" = 1) ∧
      (truthyS cfg.resources.instanceProfileName = true →
        (deleteInfrastructure cfg o).attempts.count "IAM instance profile" =
          1) ∧
      (deleteInfrastructure cfg o).failed = specDeleteFailures cfg.resources o ∧
      (deleteInfrastructure cfg o).success = true ∧
      ((deleteInfrastructure cfg o).failed = [] →
        (deleteInfrastructure cfg o).error = none) ∧
      ((deleteInfrastructure cfg o).failed ≠ [] →
        (deleteInfrastructure cfg o).error =
          some "Some resources could not be deleted") := by
  rw [deleteInfrastructure_run cfg o happ]
  refine ⟨rfl, ?_, ?_, ?_, ?_, ?_, ?_, rfl, rfl, ?_, ?_⟩
  · intro htg
    have hlb : truthyS cfg.resources.loadBalancerArn = true := by
      rw [htglb]; exact htg
    have hinst := htginst htg
    constructor <;>
      simp [specDeleteAttempts, List.count_append, htg, hlb, hinst,
        count_ite_single_ne, count_ite_single_self, List.count_cons]
  · intro hinst
    simp [specDeleteAttempts, List.count_append, hinst,
      count_ite_single_ne, count_ite_single_self, List.count_cons]
  · simp [specDeleteAttempts, List.count_append, count_ite_single_ne,
      count_ite_single_self, List.count_cons]
  · simp [specDeleteAttempts, List.count_append, count_ite_single_ne,
      count_ite_single_self, List.count_cons]
  · intro hvpc
    have h1 := hrtb hvpc
    have h2 := higw hvpc
    simp [specDeleteAttempts, List.count_append, hvpc, h1, h2,
      count_ite_single_ne, count_ite_single_self, List.count_cons]
  · intro hprof
    simp [specDeleteAttempts, List.count_append, hprof,
      count_ite_single_ne, count_ite_single_self, List.count_cons]
  · intro h; simp at h; simp [h]
  · intro h
    simp at h
    have : (specDeleteFailures cfg.resources o).length > 0 := by
      cases hf : specDeleteFailures cfg.resources o with
      | nil => exact absurd hf h
      | cons a l => simp [hf]
    simp [this]

theorem deleteInfrastructure_attempts_exactly_once_witness :
    (¬(cfgFull.appName = "") ∧
        truthyS cfgFull.resources.loadBalancerArn =
          truthyS cfgFull.resources.targetGroupArn ∧
        (truthyS cfgFull.resources.targetGroupArn = true →
          truthyS cfgFull.resources.instanceId = true) ∧
        (truthyS cfgFull.resources.vpcId = true →
          truthyS cfgFull.resources.routeTableId = true) ∧
        (truthyS cfgFull.resources.vpcId = true →
          truthyS cfgFull.resources.internetGatewayId = true)) ∧
      (deleteInfrastructure cfgFull oDeleteMixed).attempts =
        specDeleteAttempts cfgFull.resources ∧
      (truthyS cfgFull.resources.targetGroupArn = true →
        (deleteInfrastructure cfgFull oDeleteMixed).attempts.count
            "target deregistration" = 1 ∧
          (deleteInfrastructure cfgFull oDeleteMixed).attempts.count
            "load balancer" = 1) ∧
      (truthyS cfgFull.resources.instanceId = true →
        (deleteInfrastructure cfgFull oDeleteMixed).attempts.count
          "EC2 instance" = 1) ∧
      (deleteInfrastructure cfgFull oDeleteMixed).attempts.count
        "security groups" = 1 ∧
      (deleteInfrastructure cfgFull oDeleteMixed).attempts.count "subnets" =
        1 ∧
      (truthyS cfgFull.resources.vpcId = true →
        (deleteInfrastructure cfgFull oDeleteMixed).attempts.count "VPC" =
          1) ∧
      (truthyS cfgFull.resources.instanceProfileName = true →
        (deleteInfrastructure cfgFull oDeleteMixed).attempts.count
          "IAM instance profile" = 1) ∧
      (deleteInfrastructure cfgFull oDeleteMixed).failed =
        specDeleteFailures cfgFull.resources oDeleteMixed ∧
      (deleteInfrastructure cfgFull oDeleteMixed).success = true ∧
      ((deleteInfrastructure cfgFull oDeleteMixed).failed = [] →
        (deleteInfrastructure cfgFull oDeleteMixed).error = none) ∧
      ((deleteInfrastructure cfgFull oDeleteMixed).failed ≠ [] →
        (deleteInfrastructure cfgFull oDeleteMixed).error =
          some "Some resources could not be deleted") :=
  ⟨⟨by decide, by decide, by decide, by decide, by decide⟩,
    deleteInfrastructure_attempts_exactly_once cfgFull oDeleteMixed
      (by decide) (by decide) (by decide) (by decide) (by decide)⟩

/-- C3: the claim says a create run failing at stage k deletes stages
1..k-1 in strictly reverse creation order, leaving an empty Resource Set.
Failing at the load-balancer stage (k = 6) after VPC, subnets, security
groups, identity profile and instance were created, the code deletes in the
fixed order instance, security groups, subnets, VPC, identity profile —
NOT the reverse order instance, identity profile, security groups, subnets,
VPC — and even though every rollback delete succeeds, the Resource Set
still holds every created identifier afterwards. -/
theorem createRollback_order_counterexample :
    (createInfrastructure cfgEmpty oCreateAlbFail roAllOk).rollbackTrace =
        ["instance", "securityGroups", "subnets", "vpc",
          "instanceProfile"] ∧
      (createInfrastructure cfgEmpty oCreateAlbFail roAllOk).rollbackTrace ≠
        ["instance", "instanceProfile", "securityGroups", "subnets",
          "vpc"] ∧
      (createInfrastructure cfgEmpty oCreateAlbFail
            roAllOk).finalConfig.resources ≠ templateResources ∧
      (createInfrastructure cfgEmpty oCreateAlbFail roAllOk).result =
        .ok ⟨false, some "Failed to create load balancer", none⟩ := by
  refine ⟨by decide, by decide, by decide, by decide⟩

/-- C3 (amended): a create run that fails at stage k (0-indexed, stages
before k succeeding) hands the Resource Set built by stages 0..k-1 to the
compensating rollback, which attempts deletions in the code's fixed order
(instance, target group, load balancer, security groups, subnets, VPC,
identity profile — not strictly reverse creation order) truncated at the
first rollback failure; afterwards the Resource Set still holds every
identifier recorded before the failure (it is not reset to empty). -/
theorem createRollback_fixed_order_and_retained_resources (cfg0 : Config)
    (o : CreateOracle) (ro : RollbackOracle) (k : Nat)
    (hacct : o.accountDetails.isOk = true) (hconfirm : o.confirm = true)
    (hfail : failsAt o cfg0.isNodeProject k) :
    (createInfrastructure cfg0 o ro).rollbackTrace =
        (runPlanTrace (activePlan
          (rollbackSteps (createdUpTo cfg0.resources o k) ro) [])).1 ∧
      (createInfrastructure cfg0 o ro).finalConfig.resources =
        createdUpTo cfg0.resources o k := by
  obtain ⟨ht, hf⟩ := createInfrastructure_failsAt cfg0 o ro k hacct hconfirm
    hfail
  refine ⟨?_, hf⟩
  rw [ht, rollbackDeletion_spec]

theorem createRollback_fixed_order_witness :
    (oCreateAlbFail.accountDetails.isOk = true ∧
        oCreateAlbFail.confirm = true ∧
        failsAt oCreateAlbFail cfgEmpty.isNodeProject 5) ∧
      (createInfrastructure cfgEmpty oCreateAlbFail roAllOk).rollbackTrace =
        (runPlanTrace (activePlan
          (rollbackSteps (createdUpTo cfgEmpty.resources oCreateAlbFail 5)
            roAllOk) [])).1 ∧
      (createInfrastructure cfgEmpty oCreateAlbFail
          roAllOk).finalConfig.resources =
        createdUpTo cfgEmpty.resources oCreateAlbFail 5 :=
  ⟨⟨by decide, by decide, by decide⟩,
    createRollback_fixed_order_and_retained_resources cfgEmpty
      oCreateAlbFail roAllOk 5 (by decide) (by decide) (by decide)⟩

/-- C4: the claim says a non-null Resource Set field is cleared only by a
successful deletion of that resource.  In a teardown run whose
load-balancer deletion FAILS (it lands in the failure list), the very first
persisted configuration already has the target-group and load-balancer
fields cleared. -/
theorem fieldCleared_by_failed_delete_counterexample :
    ((deleteInfrastructure cfgFull oDeleteMixed).persisted.head?.map
        (fun c => c.resources.targetGroupArn)) = some none ∧
      ((deleteInfrastructure cfgFull oDeleteMixed).persisted.head?.map
        (fun c => c.resources.loadBalancerArn)) = some none ∧
      ("load balancer", "still referenced") ∈
        (deleteInfrastructure cfgFull oDeleteMixed).failed ∧
      cfgFull.resources.targetGroupArn = some "tg-1" := by
  refine ⟨by decide, by decide, by decide, by decide⟩

/-- C4 (amended): on the create path a stage's Resource Set fields are
populated only after that stage's create operation succeeds (in every
persisted configuration, starting from an empty Resource Set); on the
delete path each stage's fields are cleared after the stage is attempted
whether or not its delete succeeded, and the final write resets the whole
configuration to the template. -/
theorem resourceField_lifecycle_amended :
    (∀ (cfg0 : Config) (o : CreateOracle) (ro : RollbackOracle),
        cfg0.resources = templateResources →
        ∀ c ∈ (createInfrastructure cfg0 o ro).persisted,
          (c.resources.vpcId ≠ none → o.selectOrCreateVpc.isOk = true) ∧
          (c.resources.routeTableId ≠ none →
            o.selectOrCreateVpc.isOk = true) ∧
          (c.resources.internetGatewayId ≠ none →
            o.selectOrCreateVpc.isOk = true) ∧
          (c.resources.subnetIds ≠ [] → o.createSubnets.isOk = true) ∧
          (c.resources.securityGroupIds ≠ [] →
            o.createSecurityGroups.isOk = true) ∧
          (c.resources.instanceProfileName ≠ none →
            o.createInstanceProfile.isOk = true) ∧
          (c.resources.instanceId ≠ none →
            o.createEC2Instance.isOk = true) ∧
          (c.resources.loadBalancerArn ≠ none →
            o.createLoadBalancer.isOk = true) ∧
          (c.resources.targetGroupArn ≠ none →
            o.createLoadBalancer.isOk = true)) ∧
      ∀ (cfg : Config) (o : DeleteOracle), ¬(cfg.appName = "") →
        (deleteInfrastructure cfg o).persisted.head? =
            some { cfg with resources :=
              { cfg.resources with
                  targetGroupArn := none
                  loadBalancerArn := none } } ∧
          (deleteInfrastructure cfg o).persisted.getLast? =
            some generateConfigTemplate ∧
          (deleteInfrastructure cfg o).finalConfig =
            generateConfigTemplate := by
  constructor
  · exact createInfrastructure_fields
  · intro cfg o happ
    rw [deleteInfrastructure_run cfg o happ]
    refine ⟨rfl, ?_, rfl⟩
    simp [deleteConfigSeq]

theorem resourceField_lifecycle_witness :
    (cfgEmpty.resources = templateResources ∧ ¬(cfgFull.appName = "")) ∧
      (∀ c ∈ (createInfrastructure cfgEmpty oCreateAlbFail
          roAllOk).persisted,
        (c.resources.vpcId ≠ none →
          oCreateAlbFail.selectOrCreateVpc.isOk = true) ∧
        (c.resources.routeTableId ≠ none →
          oCreateAlbFail.selectOrCreateVpc.isOk = true) ∧
        (c.resources.internetGatewayId ≠ none →
          oCreateAlbFail.selectOrCreateVpc.isOk = true) ∧
        (c.resources.subnetIds ≠ [] →
          oCreateAlbFail.createSubnets.isOk = true) ∧
        (c.resources.securityGroupIds ≠ [] →
          oCreateAlbFail.createSecurityGroups.isOk = true) ∧
        (c.resources.instanceProfileName ≠ none →
          oCreateAlbFail.createInstanceProfile.isOk = true) ∧
        (c.resources.instanceId ≠ none →
          oCreateAlbFail.createEC2Instance.isOk = true) ∧
        (c.resources.loadBalancerArn ≠ none →
          oCreateAlbFail.createLoadBalancer.isOk = true) ∧
        (c.resources.targetGroupArn ≠ none →
          oCreateAlbFail.createLoadBalancer.isOk = true)) ∧
      (deleteInfrastructure cfgFull oDeleteMixed).persisted.head? =
          some { cfgFull with resources :=
            { cfgFull.resources with
                targetGroupArn := none
                loadBalancerArn := none } } ∧
        (deleteInfrastructure cfgFull oDeleteMixed).persisted.getLast? =
          some generateConfigTemplate ∧
        (deleteInfrastructure cfgFull oDeleteMixed).finalConfig =
          generateConfigTemplate :=
  ⟨⟨by decide, by decide⟩,
    resourceField_lifecycle_amended.1 cfgEmpty oCreateAlbFail roAllOk
      (by decide),
    resourceField_lifecycle_amended.2 cfgFull oDeleteMixed (by decide)⟩

/-- C10: the claim says the post-teardown configuration reset leaves the
application name, credentials, region, port and application type at EMPTY
defaults.  The template actually written sets port to 8080 and the
application type to "load-balanced-web-service", neither of which is
empty (here overwriting port 3000 and type "background-service"). -/
theorem deleteReset_nonempty_defaults_counterexample :
    (deleteInfrastructure cfgFull oDeleteAllOk).finalConfig.port = 8080 ∧
      ¬((deleteInfrastructure cfgFull oDeleteAllOk).finalConfig.port = 0) ∧
      (deleteInfrastructure cfgFull oDeleteAllOk).finalConfig.type =
        "load-balanced-web-service" ∧
      ¬((deleteInfrastructure cfgFull oDeleteAllOk).finalConfig.type =
        "") ∧
      cfgFull.port = 3000 ∧ cfgFull.type = "background-service" := by
  refine ⟨by decide, by decide, by decide, by decide, by decide, by decide⟩

/-- C10 (amended): after every delete run on a named app that reaches
completion — whether or not any stage's deletion failed — the persisted
configuration is overwritten with the full default template: resource
fields emptied, application name, credentials and region reset to empty
strings, the port reset to 8080 and the application type to
"load-balanced-web-service". -/
theorem deleteReset_template_amended (cfg : Config) (o : DeleteOracle)
    (happ : ¬(cfg.appName = "")) :
    (deleteInfrastructure cfg o).finalConfig = generateConfigTemplate ∧
      (deleteInfrastructure cfg o).persisted.getLast? =
        some generateConfigTemplate ∧
      generateConfigTemplate.appName = "" ∧
      generateConfigTemplate.accessKeyId = "" ∧
      generateConfigTemplate.secretAccessKey = "" ∧
      generateConfigTemplate.region = "" ∧
      generateConfigTemplate.port = 8080 ∧
      generateConfigTemplate.type = "load-balanced-web-service" ∧
      generateConfigTemplate.resources = templateResources := by
  rw [deleteInfrastructure_run cfg o happ]
  refine ⟨rfl, ?_, rfl, rfl, rfl, rfl, rfl, rfl, rfl⟩
  simp [deleteConfigSeq]

theorem deleteReset_template_witness :
    (¬(cfgFull.appName = "")) ∧
      (deleteInfrastructure cfgFull oDeleteMixed).finalConfig =
        generateConfigTemplate ∧
      (deleteInfrastructure cfgFull oDeleteMixed).persisted.getLast? =
        some generateConfigTemplate ∧
      generateConfigTemplate.appName = "" ∧
      generateConfigTemplate.accessKeyId = "" ∧
      generateConfigTemplate.secretAccessKey = "" ∧
      generateConfigTemplate.region = "" ∧
      generateConfigTemplate.port = 8080 ∧
      generateConfigTemplate.type = "load-balanced-web-service" ∧
      generateConfigTemplate.resources = templateResources :=
  ⟨by decide, deleteReset_template_amended cfgFull oDeleteMixed (by decide)⟩

end Asobi
